import Mathlib

/-!
# depster: `cmd/internal/resolve`

A shallow embedding of the three Go files of the package `resolve`
(`hacks.go`, `manifests.go`, `resolve.go`) and the properties proved about them.

Conventions of the embedding.

* A Go result `(T, error)` coming from an imported package is an
  `Except GoError T`; a result of a function of this package keeps the Go
  shape (a value together with an `Option GoError`) wherever the source can
  return both or neither.
* A pointer that may be nil is an `Option`.
* Everything the package imports and calls (URL parsing, the file system,
  the YAML decoder, the unstructured converter, the registry client, the
  solver, the declarative-config loader) is a field of `Env`; the functions
  of the package take the `Env` as their first argument.
* Calls that touch the outside world are recorded, in program order, in a
  list of `Call`s that the functions return next to their result.
-/

set_option autoImplicit false

namespace Depster

/-! ## Data model -/

/-- Go `schema.GroupVersion`. -/
structure GroupVersion where
  Group : String
  Version : String
deriving DecidableEq, Repr

/-- Go `schema.GroupVersionKind`. -/
structure GroupVersionKind where
  Group : String
  Version : String
  Kind : String
deriving DecidableEq, Repr

/-- Go `GroupVersion.WithKind`. -/
def GroupVersion.WithKind (gv : GroupVersion) (kind : String) : GroupVersionKind :=
  { Group := gv.Group, Version := gv.Version, Kind := kind }

/-- Go `url.URL`, with the fields this package reads or writes. -/
structure URL where
  Scheme : String
  Path : String
  RawQuery : String
deriving DecidableEq, Repr

/-- Go `url.Values`: a map from a key to the values given for it. -/
abbrev Values := List (String × List String)

/-- Go `url.Values.Get`: the first value of the key, the empty string when there is none. -/
def Values.Get (v : Values) (key : String) : String :=
  match v.lookup key with
  | none => ""
  | some vs => vs.headD ""

/-- An argument handed to `fmt.Errorf`. -/
inductive Arg where
  | str (s : String)
  | gvk (g : GroupVersionKind)
  | url (u : URL)
deriving DecidableEq, Repr

/-- A Go `error`: either one made by an imported package, or one made by
`fmt.Errorf` from a format string and its arguments, the last of which may be
an error wrapped with `%w`. -/
inductive GoError where
  | external (what : String)
  | errorf (format : String) (args : List Arg)
  | wrapf (format : String) (args : List Arg) (inner : GoError)
deriving DecidableEq, Repr

/-- The untyped payload of a manifest (`UnstructuredContent()`). -/
abbrev Content := List (String × String)

/-- Go `unstructured.Unstructured`: the payload, with the identity that
`GroupVersionKind()` reads from it. -/
structure Unstructured where
  gvk : GroupVersionKind
  object : Content
deriving DecidableEq, Repr

/-- Go `metav1.ObjectMeta`, with the fields this package reads or writes. -/
structure ObjectMeta where
  Name : String
  Namespace : String
deriving DecidableEq, Repr

/-- Go `v1.Namespace`. -/
structure Namespace where
  meta : ObjectMeta
deriving DecidableEq, Repr

/-- Go `v1alpha1.SubscriptionSpec`. -/
structure SubscriptionSpec where
  Package : String
  Channel : String
deriving DecidableEq, Repr

/-- Go `v1alpha1.Subscription`; `Spec` is a pointer. -/
structure Subscription where
  meta : ObjectMeta
  Spec : Option SubscriptionSpec
deriving DecidableEq, Repr

/-- Go `v1alpha1.CatalogSourceSpec`. -/
structure CatalogSourceSpec where
  SourceType : String
  Address : String
deriving DecidableEq, Repr

/-- Go `v1alpha1.CatalogSource`. -/
structure CatalogSource where
  meta : ObjectMeta
  Spec : CatalogSourceSpec
deriving DecidableEq, Repr

/-- Go `v1alpha1.ClusterServiceVersion`. -/
structure ClusterServiceVersion where
  meta : ObjectMeta
deriving DecidableEq, Repr

/-- Go `registry.CatalogKey`. -/
structure CatalogKey where
  Name : String
  Namespace : String
deriving DecidableEq, Repr

/-- Go `api.Bundle`. -/
structure Bundle where
  CsvName : String
  PackageName : String
  ChannelName : String
deriving DecidableEq, Repr

/-- Go `registry.PackageChannel` of operator-registry. -/
structure PackageChannel where
  Name : String
  CurrentCSVName : String
deriving DecidableEq, Repr

/-- Go `registry.PackageManifest` of operator-registry. -/
structure PackageManifest where
  PackageName : String
  Channels : List PackageChannel
  DefaultChannelName : String
deriving DecidableEq, Repr

/-- Go `api.Channel`. -/
structure Channel where
  Name : String
  CsvName : String
deriving DecidableEq, Repr

/-- Go `api.Package`. -/
structure Package where
  Name : String
  Channels : List Channel
  DefaultChannelName : String
deriving DecidableEq, Repr

/-- Go `orRegistry.Querier`, through the methods this package calls. -/
structure Querier where
  GetPackage : String → Except GoError PackageManifest
  ListBundles : Except GoError (List (Option Bundle))
  GetBundleForChannel : String → String → Except GoError Bundle
  GetBundleThatReplaces : String → String → String → Except GoError Bundle

/-- The client that `client.NewClient` returns for an address. -/
structure Client where
  target : String
deriving DecidableEq, Repr

/-- Go `phonyClient`. -/
structure phonyClient where
  oq : Querier
  embedded : Querier

/-- Go `client.Interface`: the two implementations this package registers. -/
inductive ClientInterface where
  | live (c : Client)
  | phony (c : phonyClient)

/-- Go `map[registry.CatalogKey]client.Interface`. -/
abbrev ClientMap := List (CatalogKey × ClientInterface)

/-- Go `_, ok := m[key]`. -/
def ClientMap.has (m : ClientMap) (key : CatalogKey) : Bool :=
  m.any (fun e => decide (e.1 = key))

/-- Go `m[key]` as a lookup. -/
def ClientMap.get (m : ClientMap) (key : CatalogKey) : Option ClientInterface :=
  (m.find? (fun e => decide (e.1 = key))).map Prod.snd

/-- Go `m[key] = c`: the entry of `key` is replaced, or added when there is none. -/
def ClientMap.set (m : ClientMap) (key : CatalogKey) (c : ClientInterface) : ClientMap :=
  m.filter (fun e => !decide (e.1 = key)) ++ [(key, c)]

/-- Go `phonyRegistryClientProvider`. -/
structure phonyRegistryClientProvider where
  clients : ClientMap

/-- Go `cache.OperatorSet`, the solver's answer. -/
abbrev OperatorSet := List (String × String)

/-- Go `declcfg.DeclarativeConfig`, what `declcfg.LoadFS` yields. -/
structure DeclarativeConfig where
  raw : String
deriving DecidableEq, Repr

/-- Go `model.Model`, what `declcfg.ConvertToModel` yields. -/
structure Model where
  packages : List PackageManifest
deriving DecidableEq, Repr

/-- A call that reaches outside the process. -/
inductive Call where
  | filepathAbs (path : String)
  | osOpen (path : String)
  | loadFS (path : String)
  | newClient (address : String)
  | solveOperators (nsnames : List String) (csvs : List ClusterServiceVersion)
      (subs : List Subscription)
deriving DecidableEq, Repr

/-- Whether a call is a call of the solver. -/
def Call.isSolve : Call → Bool
  | .solveOperators _ _ _ => true
  | _ => false

/-- Whether a call constructs a registry client. -/
def Call.isNewClient : Call → Bool
  | .newClient _ => true
  | _ => false

/-- The imported functions and constants the package uses. -/
structure Env where
  /-- `v1alpha1.SchemeGroupVersion` of operator-framework/api. -/
  operatorsGV : GroupVersion
  /-- `v1.SchemeGroupVersion` of k8s.io/api/core. -/
  coreGV : GroupVersion
  /-- `runtime.DefaultUnstructuredConverter.FromUnstructured` into a `ClusterServiceVersion`. -/
  toCSV : Content → Except GoError ClusterServiceVersion
  /-- `FromUnstructured` into a `CatalogSource`. -/
  toCatalogSource : Content → Except GoError CatalogSource
  /-- `FromUnstructured` into a `Namespace`. -/
  toNamespace : Content → Except GoError Namespace
  /-- `FromUnstructured` into a `Subscription`. -/
  toSubscription : Content → Except GoError Subscription
  /-- `url.Parse`. -/
  urlParse : String → Except GoError URL
  /-- `(*url.URL).String`. -/
  urlString : URL → String
  /-- `(*url.URL).Query`. -/
  urlQuery : URL → Values
  /-- `filepath.Abs`. -/
  filepathAbs : String → Except GoError String
  /-- `os.Open`, giving the bytes of the file. -/
  osOpen : String → Except GoError String
  /-- `yaml.NewYAMLOrJSONDecoder(fd, 64).Decode`. -/
  decode : String → Except GoError Unstructured
  /-- `client.NewClient`. -/
  newClient : String → Except GoError Client
  /-- `resolver.NewDefaultSatResolver(sp, lister, log).SolveOperators`, the
  source provider being built over the client map. -/
  solveOperators : ClientMap → List String → List ClusterServiceVersion → List Subscription →
    Except GoError OperatorSet
  /-- `declcfg.LoadFS(os.DirFS(path))`. -/
  loadFS : String → Except GoError DeclarativeConfig
  /-- `declcfg.ConvertToModel`. -/
  convertToModel : DeclarativeConfig → Except GoError Model
  /-- `orRegistry.NewQuerier`. -/
  newQuerier : Model → Except GoError Querier

/-- Modelled from the spec: the kind constant `v1alpha1.ClusterServiceVersionKind`
of the imported API package, which the spec names "ClusterServiceVersion". -/
def ClusterServiceVersionKind : String := "ClusterServiceVersion"

/-- Modelled from the spec: the kind constant `v1alpha1.SubscriptionKind` of the
imported API package, which the spec names "Subscription". -/
def SubscriptionKind : String := "Subscription"

/-- Modelled from the spec: the constant `v1alpha1.SourceTypeGrpc` of the imported
API package, which the spec gives as the "grpc" literal. -/
def SourceTypeGrpc : String := "grpc"

/-! ## hacks.go -/

/-- Go `InputBuilder`. -/
structure InputBuilder where
  namespaces : List Namespace
  subscriptions : List Subscription
  catalogs : List CatalogSource
  csvs : List ClusterServiceVersion
deriving DecidableEq, Repr

/-- The zero value `var b InputBuilder`. -/
def InputBuilder.zero : InputBuilder :=
  { namespaces := [], subscriptions := [], catalogs := [], csvs := [] }

/-- Go `(*InputBuilder).Add` (hacks.go 41-74): the error returned, and the
builder as the call leaves it. -/
def InputBuilder.Add (env : Env) (b : InputBuilder) (u : Unstructured) :
    Option GoError × InputBuilder :=
  if u.gvk = env.operatorsGV.WithKind ClusterServiceVersionKind then
    match env.toCSV u.object with
    | .error err => (some (.wrapf "failed to convert manifest: %w" [] err), b)
    | .ok csv => (none, { b with csvs := b.csvs ++ [csv] })
  else if u.gvk = env.operatorsGV.WithKind "CatalogSource" then
    match env.toCatalogSource u.object with
    | .error err => (some (.wrapf "failed to convert manifest: %w" [] err), b)
    | .ok c =>
      if c.Spec.SourceType ≠ SourceTypeGrpc then
        (some (.errorf "unsupported catalog source type: %q" [.str c.Spec.SourceType]), b)
      else
        (none, { b with catalogs := b.catalogs ++ [c] })
  else if u.gvk = env.coreGV.WithKind "Namespace" then
    match env.toNamespace u.object with
    | .error err => (some (.wrapf "failed to convert manifest: %w" [] err), b)
    | .ok n => (none, { b with namespaces := b.namespaces ++ [n] })
  else if u.gvk = env.operatorsGV.WithKind SubscriptionKind then
    match env.toSubscription u.object with
    | .error err => (some (.wrapf "failed to convert manifest: %w" [] err), b)
    | .ok s => (none, { b with subscriptions := b.subscriptions ++ [s] })
  else
    (some (.errorf "gvk %q not recognized" [.gvk u.gvk]), b)

/-- Go `phonyRegistryClientProvider.ClientsForNamespaces` (hacks.go 80-82). -/
def phonyRegistryClientProvider.ClientsForNamespaces (p : phonyRegistryClientProvider)
    (_namespaces : List String) : ClientMap :=
  p.clients

/-- Go `phonyClient.GetPackage` (hacks.go 97-116). -/
def phonyClient.GetPackage (c : phonyClient) (packageName : String) :
    Option Package × Option GoError :=
  match c.oq.GetPackage packageName with
  | .error err => (none, some err)
  | .ok p =>
    let channels := p.Channels.foldl
      (fun (channels : List Channel) channel =>
        channels ++ [{ Name := channel.Name, CsvName := channel.CurrentCSVName }]) []
    (some { Name := p.PackageName, Channels := channels,
            DefaultChannelName := p.DefaultChannelName }, none)

/-- Go `phonyClient.HealthCheck` (hacks.go 122-124). -/
def phonyClient.HealthCheck (_c : phonyClient) : Bool × Option GoError :=
  (true, none)

/-- Go `phonyBundleStream`. -/
structure phonyBundleStream where
  bundles : List (Option Bundle)
deriving DecidableEq, Repr

/-- Go `client.BundleIterator` as `client.NewBundleIterator` builds it over a stream. -/
structure BundleIterator where
  stream : phonyBundleStream
deriving DecidableEq, Repr

/-- Go `phonyClient.ListBundles` (hacks.go 126-133). -/
def phonyClient.ListBundles (c : phonyClient) : Option BundleIterator × Option GoError :=
  match c.oq.ListBundles with
  | .error err => (none, some err)
  | .ok bundles => (some { stream := { bundles := bundles } }, none)

/-- Go `(*phonyBundleStream).Recv` (hacks.go 135-144): the pair returned, and
the stream as the call leaves it. -/
def phonyBundleStream.Recv (pbs : phonyBundleStream) :
    (Option Bundle × Option GoError) × phonyBundleStream :=
  match pbs.bundles with
  | [] => ((none, none), pbs)
  | incBundle :: rest => ((incBundle, none), { pbs with bundles := rest })

/-- The results of `n` successive calls of `Recv`, oldest first, and the stream afterwards. -/
def phonyBundleStream.recvMany :
    Nat → phonyBundleStream → List (Option Bundle × Option GoError) × phonyBundleStream
  | 0, pbs => ([], pbs)
  | n + 1, pbs =>
    let r := pbs.Recv
    let rs := phonyBundleStream.recvMany n r.2
    (r.1 :: rs.1, rs.2)

/-- Successive calls of `Add` on one builder, stopping at the first error as
the caller's loop does: the error, and the builder as the calls leave it. -/
def InputBuilder.addMany (env : Env) : InputBuilder → List Unstructured → Option GoError × InputBuilder
  | b, [] => (none, b)
  | b, u :: us =>
    match b.Add env u with
    | (some err, b1) => (some err, b1)
    | (none, b1) => InputBuilder.addMany env b1 us

/-- A manifest of a recognized kind whose payload converts and, for a
CatalogSource, whose source type is grpc. -/
def Accepted (env : Env) (u : Unstructured) : Prop :=
  (u.gvk = env.operatorsGV.WithKind ClusterServiceVersionKind ∧ ∃ v, env.toCSV u.object = .ok v) ∨
  (u.gvk = env.operatorsGV.WithKind "CatalogSource" ∧
    ∃ v, env.toCatalogSource u.object = .ok v ∧ v.Spec.SourceType = SourceTypeGrpc) ∨
  (u.gvk = env.coreGV.WithKind "Namespace" ∧ ∃ v, env.toNamespace u.object = .ok v) ∨
  (u.gvk = env.operatorsGV.WithKind SubscriptionKind ∧ ∃ v, env.toSubscription u.object = .ok v)

/-- The converted values of the manifests of one kind, in the order of the manifests. -/
def ofKind {α : Type} (gvk : GroupVersionKind) (conv : Content → Except GoError α)
    (us : List Unstructured) : List α :=
  us.filterMap (fun u => if u.gvk = gvk then (conv u.object).toOption else none)

/-! ## manifests.go -/

/-- Go `FileLoader.LoadManifest` (manifests.go 38-51): the error, or the
object decoded into `dst`; and the calls made. -/
def FileLoader.LoadManifest (env : Env) (src : URL) : Except GoError Unstructured × List Call :=
  match env.osOpen src.Path with
  | .error err =>
    (.error (.wrapf "failed to open file %q: %w" [.str src.Path] err), [.osOpen src.Path])
  | .ok fd =>
    match env.decode fd with
    | .error err =>
      (.error (.wrapf "failed to decode file %q: %w" [.str src.Path] err), [.osOpen src.Path])
    | .ok dst => (.ok dst, [.osOpen src.Path])

/-- Go `SchemelessLoader.LoadManifest` (manifests.go 24-34). -/
def SchemelessLoader.LoadManifest (env : Env) (src : URL) :
    Except GoError Unstructured × List Call :=
  match env.filepathAbs (env.urlString src) with
  | .error err =>
    (.error (.wrapf "could not interpret schemeless argument as file path: %w" [] err),
      [.filepathAbs (env.urlString src)])
  | .ok abs =>
    let r := FileLoader.LoadManifest env { Scheme := "file", Path := abs, RawQuery := "" }
    (r.1, .filepathAbs (env.urlString src) :: r.2)

/-- Go interface `ManifestLoader`, with its two implementations. -/
inductive ManifestLoader where
  | SchemelessLoader
  | FileLoader
deriving DecidableEq, Repr

/-- Go dynamic dispatch of `ManifestLoader.LoadManifest`. -/
def ManifestLoader.LoadManifest (l : ManifestLoader) (env : Env) (src : URL) :
    Except GoError Unstructured × List Call :=
  match l with
  | .SchemelessLoader => Depster.SchemelessLoader.LoadManifest env src
  | .FileLoader => Depster.FileLoader.LoadManifest env src

/-- The zero value `v1alpha1.Subscription{}`. -/
def Subscription.zero : Subscription :=
  { meta := { Name := "", Namespace := "" }, Spec := none }

/-- Go `FileBasedCatalogLoader.buildSubscriptions` (manifests.go 75-87). -/
def FileBasedCatalogLoader.buildSubscriptions (query : Values) :
    Subscription × Option GoError :=
  let bundle := query.Get "bundle"
  let channel := query.Get "channel"
  if bundle ++ channel = "" then
    (Subscription.zero, some (.errorf
      "must define a bundle, version and channel when using a file based catalog" []))
  else
    ({ Spec := some { Package := bundle, Channel := channel },
       meta := { Name := "sample-" ++ bundle ++ "-subscription", Namespace := "" } }, none)

/-- Go `FileBasedCatalogLoader.LoadManifest` (manifests.go 55-73). -/
def FileBasedCatalogLoader.LoadManifest (env : Env) (src : URL) :
    (Option Querier × Subscription × Option GoError) × List Call :=
  match env.loadFS src.Path with
  | .error err =>
    ((none, Subscription.zero, some (.wrapf "error forming declarative config: %w" [] err)),
      [.loadFS src.Path])
  | .ok fbc =>
    match env.convertToModel fbc with
    | .error err =>
      ((none, Subscription.zero, some (.wrapf "error converting fbc to model: %w" [] err)),
        [.loadFS src.Path])
    | .ok m =>
      match FileBasedCatalogLoader.buildSubscriptions (env.urlQuery src) with
      | (_, some err) => ((none, Subscription.zero, some err), [.loadFS src.Path])
      | (sub, none) =>
        match env.newQuerier m with
        | .error err => ((none, sub, some err), [.loadFS src.Path])
        | .ok querier => ((some querier, sub, none), [.loadFS src.Path])

/-! ## resolve.go -/

/-- The map literal `loaders` of resolve.go 104-107, with the lookup of line 114. -/
def loaders (scheme : String) : Option ManifestLoader :=
  if scheme = "" then some .SchemelessLoader
  else if scheme = "file" then some .FileLoader
  else none

/-- The body of the loop over `args` (resolve.go 104-126) for one argument:
the error it returns with, the builder as it leaves it, the calls it made. -/
def resolveManifestsWithRunningCatalog.argBody (env : Env) (b : InputBuilder) (arg : String) :
    Option GoError × InputBuilder × List Call :=
  match env.urlParse arg with
  | .error err => (some (.wrapf "failed to parse argument %q as url: %w" [.str arg] err), b, [])
  | .ok src =>
    match loaders src.Scheme with
    | none => (some (.errorf "no manifest loader for scheme %q" [.str src.Scheme]), b, [])
    | some loader =>
      match loader.LoadManifest env src with
      | (.error err, calls) =>
        (some (.wrapf "error loading manifest from %q: %w" [.url src] err), b, calls)
      | (.ok u, calls) =>
        match b.Add env u with
        | (some err, b1) => (some (.wrapf "error adding input: %w" [] err), b1, calls)
        | (none, b1) => (none, b1, calls)

/-- The loop over `args` (resolve.go 103-127). -/
def resolveManifestsWithRunningCatalog.argLoop (env : Env) :
    List String → InputBuilder → Option GoError × InputBuilder × List Call
  | [], b => (none, b, [])
  | arg :: rest, b =>
    match resolveManifestsWithRunningCatalog.argBody env b arg with
    | (some err, b1, calls) => (some err, b1, calls)
    | (none, b1, calls) =>
      let r := resolveManifestsWithRunningCatalog.argLoop env rest b1
      (r.1, r.2.1, calls ++ r.2.2)

/-- The key built at resolve.go 134-137. -/
def CatalogSource.key (catalog : CatalogSource) : CatalogKey :=
  { Namespace := catalog.meta.Namespace, Name := catalog.meta.Name }

/-- The loop over `b.catalogs` (resolve.go 133-147): the error it returns
with, the client map as it leaves it, the calls it made. -/
def resolveManifestsWithRunningCatalog.catalogLoop (env : Env) :
    List CatalogSource → ClientMap → Option GoError × ClientMap × List Call
  | [], clients => (none, clients, [])
  | catalog :: rest, clients =>
    let key := catalog.key
    if clients.has key then
      (some (.errorf "duplicate catalog source: %s/%s" [.str key.Namespace, .str key.Name]),
        clients, [])
    else
      match env.newClient catalog.Spec.Address with
      | .error err =>
        (some (.wrapf "error creating registry client: %w" [] err), clients,
          [.newClient catalog.Spec.Address])
      | .ok c =>
        let r := resolveManifestsWithRunningCatalog.catalogLoop env rest
          (clients.set key (.live c))
        (r.1, r.2.1, .newClient catalog.Spec.Address :: r.2.2)

/-- Go `resolveManifestsWithRunningCatalog` (resolve.go 101-164): the result
and the calls made, in order. -/
def resolveManifestsWithRunningCatalog (env : Env) (args : List String) :
    Except GoError OperatorSet × List Call :=
  match resolveManifestsWithRunningCatalog.argLoop env args InputBuilder.zero with
  | (some err, _, calls) => (.error err, calls)
  | (none, b, calls) =>
    match resolveManifestsWithRunningCatalog.catalogLoop env b.catalogs [] with
    | (some err, _, calls2) => (.error err, calls ++ calls2)
    | (none, clients, calls2) =>
      let nsnames := b.namespaces.foldl (fun (nsnames : List String) ns => nsnames ++ [ns.meta.Name]) []
      match env.solveOperators clients nsnames b.csvs b.subscriptions with
      | .error err =>
        (.error (.wrapf "resolution failed: %w" [] err),
          calls ++ calls2 ++ [.solveOperators nsnames b.csvs b.subscriptions])
      | .ok operators =>
        (.ok operators, calls ++ calls2 ++ [.solveOperators nsnames b.csvs b.subscriptions])

/-- Go `resolveFileBasedCatalog` (resolve.go 64-99): `none` is the run-time
panic of `args[0]` on an empty list or of `*q` on a nil querier; otherwise the
result and the calls made, in order. -/
def resolveFileBasedCatalog (env : Env) (args : List String) :
    Option (Except GoError OperatorSet × List Call) :=
  match args with
  | [] => none
  | arg0 :: _ =>
    match env.urlParse arg0 with
    | .error err => some (.error err, [])
    | .ok fbcURL =>
      match FileBasedCatalogLoader.LoadManifest env fbcURL with
      | ((_, _, some err), calls) =>
        some (.error (.wrapf "error while creating declarative config querier: %w" [] err), calls)
      | ((none, _, none), _) => none
      | ((some q, sub, none), calls) =>
        let clients := ClientMap.set [] { Namespace := "", Name := "" }
          (.phony { embedded := q, oq := q })
        match env.solveOperators clients ["test"] [] [sub] with
        | .error err =>
          some (.error (.wrapf "resolution failed: %w" [] err),
            calls ++ [.solveOperators ["test"] [] [sub]])
        | .ok operators =>
          some (.ok operators, calls ++ [.solveOperators ["test"] [] [sub]])

/-- The error with which the loop body returns on an argument, nil when it
accepts it; the builder the body starts from plays no part in it. -/
def argError (env : Env) (arg : String) : Option GoError :=
  (resolveManifestsWithRunningCatalog.argBody env InputBuilder.zero arg).1

/-- The calls the loop body makes on an argument. -/
def argCalls (env : Env) (arg : String) : List Call :=
  (resolveManifestsWithRunningCatalog.argBody env InputBuilder.zero arg).2.2

/-- The calls that loading one argument makes: those of its loader, when it
parses and its scheme has a loader. -/
def loadCalls (env : Env) (arg : String) : List Call :=
  match env.urlParse arg with
  | .error _ => []
  | .ok src =>
    match loaders src.Scheme with
    | none => []
    | some loader => (loader.LoadManifest env src).2

/-! ## A sample environment

One concrete `Env`, small enough to evaluate by hand: a working directory
`/work` with a few manifests, table-driven decoding and conversion, and a
solver that answers from the subscriptions it is given. -/

/-- The files of the sample file system: path and bytes. -/
def sampleFiles : List (String × String) :=
  [("/work/ns1.yaml", "ns1"), ("/work/sub.yaml", "sub"), ("/work/cat1.yaml", "cat1"),
   ("/work/cat1-again.yaml", "cat1-again"), ("/work/internal.yaml", "internal"),
   ("/work/pod.yaml", "pod"), ("/work/my file.yaml", "ns1")]

/-- The group and version of the operators API. -/
def sampleOperatorsGV : GroupVersion := { Group := "operators.coreos.com", Version := "v1alpha1" }

/-- The group and version of the core API. -/
def sampleCoreGV : GroupVersion := { Group := "", Version := "v1" }

/-- The manifest of a CatalogSource with the given name, address and source type. -/
def sampleCatalogManifest (name address sourceType : String) : Unstructured :=
  { gvk := sampleOperatorsGV.WithKind "CatalogSource",
    object := [("metadata.namespace", "ns1"), ("metadata.name", name),
               ("spec.address", address), ("spec.sourceType", sourceType)] }

/-- The manifest of the Namespace `ns1`. -/
def sampleNamespaceManifest : Unstructured :=
  { gvk := sampleCoreGV.WithKind "Namespace", object := [("metadata.name", "ns1")] }

/-- The manifest of a Subscription to the package `etcd`. -/
def sampleSubscriptionManifest : Unstructured :=
  { gvk := sampleOperatorsGV.WithKind "Subscription",
    object := [("metadata.namespace", "ns1"), ("metadata.name", "etcd-sub"),
               ("spec.name", "etcd"), ("spec.channel", "singlenamespace-alpha")] }

/-- The decoder of the sample environment: the object each file content stands for. -/
def sampleDecode (bytes : String) : Except GoError Unstructured :=
  if bytes = "ns1" then .ok sampleNamespaceManifest
  else if bytes = "sub" then .ok sampleSubscriptionManifest
  else if bytes = "cat1" then .ok (sampleCatalogManifest "cat1" "localhost:50051" "grpc")
  else if bytes = "cat1-again" then .ok (sampleCatalogManifest "cat1" "localhost:50052" "grpc")
  else if bytes = "internal" then .ok (sampleCatalogManifest "cat2" "" "internal")
  else if bytes = "pod" then
    .ok { gvk := sampleCoreGV.WithKind "Pod", object := [("metadata.name", "p")] }
  else .error (.external "yaml: cannot decode")

/-- A field of a payload, the empty string when it is absent. -/
def Content.field (c : Content) (path : String) : String :=
  (c.lookup path).getD ""

/-- The object metadata a payload carries. -/
def sampleMeta (c : Content) : ObjectMeta :=
  { Name := Content.field c "metadata.name", Namespace := Content.field c "metadata.namespace" }

/-- Percent-encoding of the blanks of a path, as `(*url.URL).String` does it. -/
def sampleEscape : List Char → List Char
  | [] => []
  | c :: cs => if c = ' ' then '%' :: '2' :: '0' :: sampleEscape cs else c :: sampleEscape cs

/-- The URL parser of the sample environment: `file://` locators and
schemeless paths, either with a query after a question mark. -/
def sampleParse (arg : String) : Except GoError URL :=
  let body := arg.data.takeWhile (fun c => c != '?')
  let query := String.mk ((arg.data.dropWhile (fun c => c != '?')).drop 1)
  if arg = "%zz" then .error (.external "invalid URL escape")
  else if body.take 7 = "file://".data then
    .ok { Scheme := "file", Path := String.mk (body.drop 7), RawQuery := query }
  else if body.take 7 = "http://".data then
    .ok { Scheme := "http", Path := String.mk (body.drop 7), RawQuery := query }
  else .ok { Scheme := "", Path := String.mk body, RawQuery := query }

/-- The string form of a URL in the sample environment. -/
def sampleString (u : URL) : String :=
  (if u.Scheme = "" then "" else u.Scheme ++ "://") ++ String.mk (sampleEscape u.Path.data) ++
    (if u.RawQuery = "" then "" else "?" ++ u.RawQuery)

/-- The query values of a URL in the sample environment. -/
def sampleQuery (u : URL) : Values :=
  if u.RawQuery = "bundle=etcd&channel=alpha" then [("bundle", ["etcd"]), ("channel", ["alpha"])]
  else if u.RawQuery = "bundle=etcd" then [("bundle", ["etcd"])]
  else []

/-- The package the sample querier knows. -/
def samplePackage : PackageManifest :=
  { PackageName := "etcd",
    Channels := [{ Name := "alpha", CurrentCSVName := "etcd.v0.9.4" },
                 { Name := "beta", CurrentCSVName := "etcd.v0.9.0" }],
    DefaultChannelName := "alpha" }

/-- The bundles the sample querier lists. -/
def sampleBundles : List (Option Bundle) :=
  [some { CsvName := "etcd.v0.9.0", PackageName := "etcd", ChannelName := "beta" },
   some { CsvName := "etcd.v0.9.4", PackageName := "etcd", ChannelName := "alpha" }]

/-- The querier of the sample environment. -/
def sampleQuerier : Querier :=
  { GetPackage := fun name =>
      if name = "etcd" then .ok samplePackage else .error (.external "package not found"),
    ListBundles := .ok sampleBundles,
    GetBundleForChannel := fun _ _ => .error (.external "not found"),
    GetBundleThatReplaces := fun _ _ _ => .error (.external "not found") }

/-- Two classified catalogs with the key ns1/cat1 and different addresses. -/
def sampleDuplicates : List CatalogSource :=
  [{ meta := { Name := "cat1", Namespace := "ns1" },
     Spec := { SourceType := "grpc", Address := "localhost:50051" } },
   { meta := { Name := "cat1", Namespace := "ns1" },
     Spec := { SourceType := "grpc", Address := "localhost:50052" } }]

/-- A classified catalog of the namespace `ns1` with the given name and address. -/
def sampleCatalog (name address : String) : CatalogSource :=
  { meta := { Name := name, Namespace := "ns1" },
    Spec := { SourceType := "grpc", Address := address } }

/-- Four classified catalogs: two with the key ns1/catA, then two with the key ns1/catB. -/
def sampleTwoPairs : List CatalogSource :=
  [sampleCatalog "catA" "localhost:50051", sampleCatalog "catA" "localhost:50052",
   sampleCatalog "catB" "localhost:50053", sampleCatalog "catB" "localhost:50054"]

/-- The sample environment. -/
def sampleEnv : Env :=
  { operatorsGV := sampleOperatorsGV,
    coreGV := sampleCoreGV,
    toCSV := fun c => .ok { meta := sampleMeta c },
    toCatalogSource := fun c =>
      .ok { meta := sampleMeta c,
            Spec := { SourceType := Content.field c "spec.sourceType",
                      Address := Content.field c "spec.address" } },
    toNamespace := fun c => .ok { meta := sampleMeta c },
    toSubscription := fun c =>
      .ok { meta := sampleMeta c,
            Spec := some { Package := Content.field c "spec.name",
                           Channel := Content.field c "spec.channel" } },
    urlParse := sampleParse,
    urlString := sampleString,
    urlQuery := sampleQuery,
    filepathAbs := fun path =>
      if path.data.head? = some '/' then .ok path else .ok ("/work/" ++ path),
    osOpen := fun path =>
      match sampleFiles.lookup path with
      | some bytes => .ok bytes
      | none => .error (.external "no such file or directory"),
    decode := sampleDecode,
    newClient := fun address => .ok { target := address },
    solveOperators := fun _ _ _ subs =>
      if subs = [] then .error (.external "nothing to resolve")
      else .ok (subs.map (fun s => (s.meta.Name, "resolved"))),
    loadFS := fun path =>
      if path = "/catalog" then .ok { raw := "etcd" }
      else .error (.external "no such directory"),
    convertToModel := fun _ => .ok { packages := [samplePackage] },
    newQuerier := fun _ => .ok sampleQuerier }

end Depster

/-! ## Properties -/

namespace Depster

/-! ### Auxiliary facts -/

theorem withKind_inj (gv : GroupVersion) (k1 k2 : String)
    (h : gv.WithKind k1 = gv.WithKind k2) : k1 = k2 := by
  simp only [GroupVersion.WithKind, GroupVersionKind.mk.injEq] at h
  exact h.2.2

theorem withKind_ne_of_kind_ne (gv1 gv2 : GroupVersion) (k1 k2 : String) (h : k1 ≠ k2) :
    gv1.WithKind k1 ≠ gv2.WithKind k2 := by
  intro hh
  simp only [GroupVersion.WithKind, GroupVersionKind.mk.injEq] at hh
  exact h hh.2.2

theorem foldl_append_singleton {α β : Type} (f : α → β) (l : List α) (init : List β) :
    l.foldl (fun acc x => acc ++ [f x]) init = init ++ l.map f := by
  induction l generalizing init with
  | nil => simp
  | cons x xs ih => simp [ih]

theorem recvMany_nil (m : Nat) :
    phonyBundleStream.recvMany m { bundles := [] } =
      (List.replicate m (none, none), { bundles := [] }) := by
  induction m with
  | zero => rfl
  | succ m ih => simp [phonyBundleStream.recvMany, phonyBundleStream.Recv, ih, List.replicate_succ]

theorem recvMany_all (L : List (Option Bundle)) (m : Nat) :
    phonyBundleStream.recvMany (L.length + m) { bundles := L } =
      (L.map (fun b => (b, none)) ++ List.replicate m (none, none), { bundles := [] }) := by
  induction L with
  | nil => simpa using recvMany_nil m
  | cons b rest ih =>
    have hlen : (b :: rest).length + m = (rest.length + m) + 1 := by
      simp only [List.length_cons]; omega
    rw [hlen]
    simp [phonyBundleStream.recvMany, phonyBundleStream.Recv, ih]

/-! ### hacks.go -/

/-- C1: when the backing querier lists the bundles `L`, `ListBundles` returns,
with a nil error, an iterator over a stream holding `L`; the first `L.length`
calls of `Recv` on that stream return the elements of `L` in order, each once
and each with a nil error, and every later call returns the nil bundle with a
nil error; the stream is then empty. -/
theorem phonyBundleStream_Recv_enumerates (c : phonyClient) (L : List (Option Bundle))
    (h : c.oq.ListBundles = .ok L) :
    ∃ it, c.ListBundles = (some it, none) ∧ it.stream.bundles = L ∧
      ∀ m, it.stream.recvMany (L.length + m) =
        (L.map (fun b => (b, none)) ++ List.replicate m (none, none), { bundles := [] }) := by
  refine ⟨{ stream := { bundles := L } }, ?_, rfl, ?_⟩
  · simp [phonyClient.ListBundles, h]
  · intro m
    exact recvMany_all L m

theorem phonyBundleStream_Recv_enumerates_witness :
    ∃ it, ({ oq := sampleQuerier, embedded := sampleQuerier } : phonyClient).ListBundles
        = (some it, none) ∧ it.stream.bundles = sampleBundles ∧
      ∀ m, it.stream.recvMany (sampleBundles.length + m) =
        (sampleBundles.map (fun b => (b, none)) ++ List.replicate m (none, none),
          { bundles := [] }) :=
  phonyBundleStream_Recv_enumerates { oq := sampleQuerier, embedded := sampleQuerier }
    sampleBundles rfl

/-- C6: when the backing querier's `GetPackage` succeeds with the manifest `p`,
`phonyClient.GetPackage` returns, with a nil error, a package with the name and
the default channel name of `p` and with as many channels as `p`, the channel
at each index carrying the name and the current CSV name of the channel of `p`
at that index; when the backing querier fails, `GetPackage` returns that error
and no package. -/
theorem phonyClient_GetPackage_translates (c : phonyClient) (packageName : String) :
    (∀ p, c.oq.GetPackage packageName = .ok p →
      ∃ pkg, c.GetPackage packageName = (some pkg, none) ∧
        pkg.Name = p.PackageName ∧ pkg.DefaultChannelName = p.DefaultChannelName ∧
        pkg.Channels.length = p.Channels.length ∧
        ∀ (i : Nat) (ch : PackageChannel), p.Channels[i]? = some ch →
          pkg.Channels[i]? = some (Channel.mk ch.Name ch.CurrentCSVName)) ∧
    (∀ err, c.oq.GetPackage packageName = .error err →
      c.GetPackage packageName = (none, some err)) := by
  constructor
  · intro p hp
    have hfold := foldl_append_singleton
      (fun ch : PackageChannel => Channel.mk ch.Name ch.CurrentCSVName) p.Channels []
    simp only [List.nil_append] at hfold
    refine ⟨{ Name := p.PackageName,
              Channels := p.Channels.map (fun ch => Channel.mk ch.Name ch.CurrentCSVName),
              DefaultChannelName := p.DefaultChannelName }, ?_, rfl, rfl, ?_, ?_⟩
    · simp only [phonyClient.GetPackage, hp, hfold]
    · simp
    · intro i ch hi
      simp [hi]
  · intro err he
    simp [phonyClient.GetPackage, he]

theorem phonyClient_GetPackage_translates_witness :
    ∃ pkg, ({ oq := sampleQuerier, embedded := sampleQuerier } : phonyClient).GetPackage "etcd"
        = (some pkg, none) ∧
      pkg.Name = "etcd" ∧ pkg.DefaultChannelName = "alpha" ∧
      pkg.Channels.length = 2 ∧
      ∀ (i : Nat) (ch : PackageChannel), samplePackage.Channels[i]? = some ch →
        pkg.Channels[i]? = some (Channel.mk ch.Name ch.CurrentCSVName) :=
  (phonyClient_GetPackage_translates { oq := sampleQuerier, embedded := sampleQuerier } "etcd").1
    samplePackage rfl

/-- C3: for a manifest whose group/version/kind is CatalogSource and whose
converted `spec.sourceType` is not the grpc value, `Add` returns the
"unsupported catalog source type" error and leaves the builder, hence each of
its four sequences, as it was. -/
theorem InputBuilder_Add_rejects_non_grpc (env : Env) (b : InputBuilder) (u : Unstructured)
    (c : CatalogSource)
    (hk : u.gvk = env.operatorsGV.WithKind "CatalogSource")
    (hc : env.toCatalogSource u.object = .ok c)
    (hs : c.Spec.SourceType ≠ SourceTypeGrpc) :
    b.Add env u =
      (some (.errorf "unsupported catalog source type: %q" [.str c.Spec.SourceType]), b) ∧
    (b.Add env u).2.catalogs = b.catalogs ∧ (b.Add env u).2.namespaces = b.namespaces ∧
    (b.Add env u).2.subscriptions = b.subscriptions ∧ (b.Add env u).2.csvs = b.csvs := by
  have h1 : u.gvk ≠ env.operatorsGV.WithKind ClusterServiceVersionKind := by
    rw [hk]; exact withKind_ne_of_kind_ne _ _ _ _ (by decide)
  have hadd : b.Add env u =
      (some (.errorf "unsupported catalog source type: %q" [.str c.Spec.SourceType]), b) := by
    unfold InputBuilder.Add
    rw [if_neg h1, if_pos hk, hc]
    simp only [if_pos hs]
  rw [hadd]
  exact ⟨rfl, rfl, rfl, rfl, rfl⟩

theorem InputBuilder_Add_rejects_non_grpc_witness :
    InputBuilder.zero.Add sampleEnv (sampleCatalogManifest "cat2" "" "internal") =
      (some (.errorf "unsupported catalog source type: %q" [.str "internal"]),
        InputBuilder.zero) :=
  (InputBuilder_Add_rejects_non_grpc sampleEnv InputBuilder.zero
    (sampleCatalogManifest "cat2" "" "internal")
    { meta := { Name := "cat2", Namespace := "ns1" },
      Spec := { SourceType := "internal", Address := "" } }
    rfl rfl (by decide)).1

/-- C7: for a manifest whose group/version/kind is none of the four recognized
signatures, `Add` returns the "not recognized" error and leaves the builder,
hence each of its four sequences, as it was; in particular a recognized kind
name under a group/version other than the one of its signature is rejected. -/
theorem InputBuilder_Add_rejects_unrecognized (env : Env) (b : InputBuilder) (u : Unstructured) :
    (u.gvk ≠ env.operatorsGV.WithKind ClusterServiceVersionKind →
     u.gvk ≠ env.operatorsGV.WithKind "CatalogSource" →
     u.gvk ≠ env.coreGV.WithKind "Namespace" →
     u.gvk ≠ env.operatorsGV.WithKind SubscriptionKind →
      b.Add env u = (some (.errorf "gvk %q not recognized" [.gvk u.gvk]), b)) ∧
    ((u.gvk.Kind = "Namespace" ∧
        (u.gvk.Group ≠ env.coreGV.Group ∨ u.gvk.Version ≠ env.coreGV.Version)) ∨
     ((u.gvk.Kind = ClusterServiceVersionKind ∨ u.gvk.Kind = "CatalogSource" ∨
          u.gvk.Kind = SubscriptionKind) ∧
        (u.gvk.Group ≠ env.operatorsGV.Group ∨ u.gvk.Version ≠ env.operatorsGV.Version)) →
      b.Add env u = (some (.errorf "gvk %q not recognized" [.gvk u.gvk]), b)) := by
  have main : u.gvk ≠ env.operatorsGV.WithKind ClusterServiceVersionKind →
      u.gvk ≠ env.operatorsGV.WithKind "CatalogSource" →
      u.gvk ≠ env.coreGV.WithKind "Namespace" →
      u.gvk ≠ env.operatorsGV.WithKind SubscriptionKind →
      b.Add env u = (some (.errorf "gvk %q not recognized" [.gvk u.gvk]), b) := by
    intro h1 h2 h3 h4
    unfold InputBuilder.Add
    rw [if_neg h1, if_neg h2, if_neg h3, if_neg h4]
  refine ⟨main, ?_⟩
  intro h
  have hcases : ∀ (gv : GroupVersion) (k : String), u.gvk = gv.WithKind k →
      u.gvk.Group = gv.Group ∧ u.gvk.Version = gv.Version ∧ u.gvk.Kind = k := by
    intro gv k hk
    rw [hk]
    exact ⟨rfl, rfl, rfl⟩
  apply main
  · intro hk
    obtain ⟨hg, hv, hkind⟩ := hcases _ _ hk
    rcases h with ⟨hn, _⟩ | ⟨_, hgv⟩
    · rw [hkind] at hn; exact absurd hn (by decide)
    · rcases hgv with hgv | hgv
      · exact hgv hg
      · exact hgv hv
  · intro hk
    obtain ⟨hg, hv, hkind⟩ := hcases _ _ hk
    rcases h with ⟨hn, _⟩ | ⟨_, hgv⟩
    · rw [hkind] at hn; exact absurd hn (by decide)
    · rcases hgv with hgv | hgv
      · exact hgv hg
      · exact hgv hv
  · intro hk
    obtain ⟨hg, hv, hkind⟩ := hcases _ _ hk
    rcases h with ⟨_, hgv⟩ | ⟨hn, _⟩
    · rcases hgv with hgv | hgv
      · exact hgv hg
      · exact hgv hv
    · rw [hkind] at hn
      rcases hn with hn | hn | hn <;> exact absurd hn (by decide)
  · intro hk
    obtain ⟨hg, hv, hkind⟩ := hcases _ _ hk
    rcases h with ⟨hn, _⟩ | ⟨_, hgv⟩
    · rw [hkind] at hn; exact absurd hn (by decide)
    · rcases hgv with hgv | hgv
      · exact hgv hg
      · exact hgv hv

theorem InputBuilder_Add_rejects_unrecognized_witness :
    InputBuilder.zero.Add sampleEnv
        { gvk := sampleCoreGV.WithKind "Pod", object := [("metadata.name", "p")] } =
      (some (.errorf "gvk %q not recognized" [.gvk (sampleCoreGV.WithKind "Pod")]),
        InputBuilder.zero) ∧
    InputBuilder.zero.Add sampleEnv
        { gvk := sampleCoreGV.WithKind "Subscription", object := [] } =
      (some (.errorf "gvk %q not recognized" [.gvk (sampleCoreGV.WithKind "Subscription")]),
        InputBuilder.zero) :=
  ⟨(InputBuilder_Add_rejects_unrecognized sampleEnv InputBuilder.zero
      { gvk := sampleCoreGV.WithKind "Pod", object := [("metadata.name", "p")] }).1
      (by decide) (by decide) (by decide) (by decide),
   (InputBuilder_Add_rejects_unrecognized sampleEnv InputBuilder.zero
      { gvk := sampleCoreGV.WithKind "Subscription", object := [] }).2
      (Or.inr ⟨by decide, by decide⟩)⟩

theorem add_csv (env : Env) (b : InputBuilder) (u : Unstructured) (v : ClusterServiceVersion)
    (hk : u.gvk = env.operatorsGV.WithKind ClusterServiceVersionKind)
    (hc : env.toCSV u.object = .ok v) :
    b.Add env u = (none, { b with csvs := b.csvs ++ [v] }) := by
  unfold InputBuilder.Add
  rw [if_pos hk, hc]

theorem add_catalog (env : Env) (b : InputBuilder) (u : Unstructured) (v : CatalogSource)
    (hk : u.gvk = env.operatorsGV.WithKind "CatalogSource")
    (hc : env.toCatalogSource u.object = .ok v) (hs : v.Spec.SourceType = SourceTypeGrpc) :
    b.Add env u = (none, { b with catalogs := b.catalogs ++ [v] }) := by
  have h1 : u.gvk ≠ env.operatorsGV.WithKind ClusterServiceVersionKind := by
    rw [hk]; exact withKind_ne_of_kind_ne _ _ _ _ (by decide)
  unfold InputBuilder.Add
  rw [if_neg h1, if_pos hk, hc]
  simp only [ne_eq, hs, not_true_eq_false, if_false]

theorem add_namespace (env : Env) (b : InputBuilder) (u : Unstructured) (v : Namespace)
    (hk : u.gvk = env.coreGV.WithKind "Namespace")
    (hc : env.toNamespace u.object = .ok v) :
    b.Add env u = (none, { b with namespaces := b.namespaces ++ [v] }) := by
  have h1 : u.gvk ≠ env.operatorsGV.WithKind ClusterServiceVersionKind := by
    rw [hk]; exact withKind_ne_of_kind_ne _ _ _ _ (by decide)
  have h2 : u.gvk ≠ env.operatorsGV.WithKind "CatalogSource" := by
    rw [hk]; exact withKind_ne_of_kind_ne _ _ _ _ (by decide)
  unfold InputBuilder.Add
  rw [if_neg h1, if_neg h2, if_pos hk, hc]

theorem add_subscription (env : Env) (b : InputBuilder) (u : Unstructured) (v : Subscription)
    (hk : u.gvk = env.operatorsGV.WithKind SubscriptionKind)
    (hc : env.toSubscription u.object = .ok v) :
    b.Add env u = (none, { b with subscriptions := b.subscriptions ++ [v] }) := by
  have h1 : u.gvk ≠ env.operatorsGV.WithKind ClusterServiceVersionKind := by
    rw [hk]; exact withKind_ne_of_kind_ne _ _ _ _ (by decide)
  have h2 : u.gvk ≠ env.operatorsGV.WithKind "CatalogSource" := by
    rw [hk]; exact withKind_ne_of_kind_ne _ _ _ _ (by decide)
  have h3 : u.gvk ≠ env.coreGV.WithKind "Namespace" := by
    rw [hk]; exact withKind_ne_of_kind_ne _ _ _ _ (by decide)
  unfold InputBuilder.Add
  rw [if_neg h1, if_neg h2, if_neg h3, if_pos hk, hc]

theorem ofKind_cons_pos {α : Type} (gvk : GroupVersionKind) (conv : Content → Except GoError α)
    (u : Unstructured) (us : List Unstructured) (v : α)
    (hk : u.gvk = gvk) (hc : conv u.object = .ok v) :
    ofKind gvk conv (u :: us) = v :: ofKind gvk conv us := by
  simp [ofKind, hk, hc, Except.toOption]

theorem ofKind_cons_neg {α : Type} (gvk : GroupVersionKind) (conv : Content → Except GoError α)
    (u : Unstructured) (us : List Unstructured) (hk : u.gvk ≠ gvk) :
    ofKind gvk conv (u :: us) = ofKind gvk conv us := by
  simp [ofKind, hk]

theorem addMany_accepted (env : Env) (us : List Unstructured) :
    ∀ b : InputBuilder, (∀ u ∈ us, Accepted env u) →
      InputBuilder.addMany env b us =
        (none,
          { namespaces := b.namespaces ++ ofKind (env.coreGV.WithKind "Namespace") env.toNamespace us,
            subscriptions := b.subscriptions ++
              ofKind (env.operatorsGV.WithKind SubscriptionKind) env.toSubscription us,
            catalogs := b.catalogs ++
              ofKind (env.operatorsGV.WithKind "CatalogSource") env.toCatalogSource us,
            csvs := b.csvs ++
              ofKind (env.operatorsGV.WithKind ClusterServiceVersionKind) env.toCSV us }) := by
  induction us with
  | nil =>
    intro b _
    simp [InputBuilder.addMany, ofKind]
  | cons u us ih =>
    intro b hall
    have hrest : ∀ x ∈ us, Accepted env x := fun x hx => hall x (List.mem_cons_of_mem _ hx)
    have hu : Accepted env u := hall u (List.mem_cons_self _ _)
    rcases hu with ⟨hk, v, hc⟩ | ⟨hk, v, hc, hs⟩ | ⟨hk, v, hc⟩ | ⟨hk, v, hc⟩
    · have n2 : u.gvk ≠ env.operatorsGV.WithKind "CatalogSource" := by
        rw [hk]; exact withKind_ne_of_kind_ne _ _ _ _ (by decide)
      have n3 : u.gvk ≠ env.coreGV.WithKind "Namespace" := by
        rw [hk]; exact withKind_ne_of_kind_ne _ _ _ _ (by decide)
      have n4 : u.gvk ≠ env.operatorsGV.WithKind SubscriptionKind := by
        rw [hk]; exact withKind_ne_of_kind_ne _ _ _ _ (by decide)
      simp only [InputBuilder.addMany, add_csv env b u v hk hc, ih _ hrest,
        ofKind_cons_pos _ _ u us v hk hc, ofKind_cons_neg _ _ u us n2,
        ofKind_cons_neg _ _ u us n3, ofKind_cons_neg _ _ u us n4,
        List.append_assoc, List.singleton_append]
    · have n1 : u.gvk ≠ env.operatorsGV.WithKind ClusterServiceVersionKind := by
        rw [hk]; exact withKind_ne_of_kind_ne _ _ _ _ (by decide)
      have n3 : u.gvk ≠ env.coreGV.WithKind "Namespace" := by
        rw [hk]; exact withKind_ne_of_kind_ne _ _ _ _ (by decide)
      have n4 : u.gvk ≠ env.operatorsGV.WithKind SubscriptionKind := by
        rw [hk]; exact withKind_ne_of_kind_ne _ _ _ _ (by decide)
      simp only [InputBuilder.addMany, add_catalog env b u v hk hc hs, ih _ hrest,
        ofKind_cons_pos _ _ u us v hk hc, ofKind_cons_neg _ _ u us n1,
        ofKind_cons_neg _ _ u us n3, ofKind_cons_neg _ _ u us n4,
        List.append_assoc, List.singleton_append]
    · have n1 : u.gvk ≠ env.operatorsGV.WithKind ClusterServiceVersionKind := by
        rw [hk]; exact withKind_ne_of_kind_ne _ _ _ _ (by decide)
      have n2 : u.gvk ≠ env.operatorsGV.WithKind "CatalogSource" := by
        rw [hk]; exact withKind_ne_of_kind_ne _ _ _ _ (by decide)
      have n4 : u.gvk ≠ env.operatorsGV.WithKind SubscriptionKind := by
        rw [hk]; exact withKind_ne_of_kind_ne _ _ _ _ (by decide)
      simp only [InputBuilder.addMany, add_namespace env b u v hk hc, ih _ hrest,
        ofKind_cons_pos _ _ u us v hk hc, ofKind_cons_neg _ _ u us n1,
        ofKind_cons_neg _ _ u us n2, ofKind_cons_neg _ _ u us n4,
        List.append_assoc, List.singleton_append]
    · have n1 : u.gvk ≠ env.operatorsGV.WithKind ClusterServiceVersionKind := by
        rw [hk]; exact withKind_ne_of_kind_ne _ _ _ _ (by decide)
      have n2 : u.gvk ≠ env.operatorsGV.WithKind "CatalogSource" := by
        rw [hk]; exact withKind_ne_of_kind_ne _ _ _ _ (by decide)
      have n3 : u.gvk ≠ env.coreGV.WithKind "Namespace" := by
        rw [hk]; exact withKind_ne_of_kind_ne _ _ _ _ (by decide)
      simp only [InputBuilder.addMany, add_subscription env b u v hk hc, ih _ hrest,
        ofKind_cons_pos _ _ u us v hk hc, ofKind_cons_neg _ _ u us n1,
        ofKind_cons_neg _ _ u us n2, ofKind_cons_neg _ _ u us n3,
        List.append_assoc, List.singleton_append]

/-- C8: for a manifest of a recognized kind whose payload converts (and, for a
CatalogSource, has source type grpc), `Add` returns no error, appends the
converted value at the end of the sequence of that kind and leaves the other
three sequences as they were; and after successive calls of `Add` on accepted
manifests, each of the four sequences is what it was followed by the converted
manifests of its kind, in the order of the input. -/
theorem InputBuilder_Add_appends (env : Env) (b : InputBuilder) :
    (∀ u, (∀ v, u.gvk = env.operatorsGV.WithKind ClusterServiceVersionKind →
            env.toCSV u.object = .ok v →
            b.Add env u = (none, { b with csvs := b.csvs ++ [v] })) ∧
          (∀ v, u.gvk = env.operatorsGV.WithKind "CatalogSource" →
            env.toCatalogSource u.object = .ok v → v.Spec.SourceType = SourceTypeGrpc →
            b.Add env u = (none, { b with catalogs := b.catalogs ++ [v] })) ∧
          (∀ v, u.gvk = env.coreGV.WithKind "Namespace" →
            env.toNamespace u.object = .ok v →
            b.Add env u = (none, { b with namespaces := b.namespaces ++ [v] })) ∧
          (∀ v, u.gvk = env.operatorsGV.WithKind SubscriptionKind →
            env.toSubscription u.object = .ok v →
            b.Add env u = (none, { b with subscriptions := b.subscriptions ++ [v] }))) ∧
    (∀ us : List Unstructured, (∀ u ∈ us, Accepted env u) →
      InputBuilder.addMany env b us =
        (none,
          { namespaces := b.namespaces ++ ofKind (env.coreGV.WithKind "Namespace") env.toNamespace us,
            subscriptions := b.subscriptions ++
              ofKind (env.operatorsGV.WithKind SubscriptionKind) env.toSubscription us,
            catalogs := b.catalogs ++
              ofKind (env.operatorsGV.WithKind "CatalogSource") env.toCatalogSource us,
            csvs := b.csvs ++
              ofKind (env.operatorsGV.WithKind ClusterServiceVersionKind) env.toCSV us })) :=
  ⟨fun u => ⟨fun v hk hc => add_csv env b u v hk hc,
             fun v hk hc hs => add_catalog env b u v hk hc hs,
             fun v hk hc => add_namespace env b u v hk hc,
             fun v hk hc => add_subscription env b u v hk hc⟩,
   fun us hall => addMany_accepted env us b hall⟩

theorem InputBuilder_Add_appends_witness :
    InputBuilder.addMany sampleEnv InputBuilder.zero
        [sampleNamespaceManifest, sampleCatalogManifest "cat1" "localhost:50051" "grpc",
         sampleSubscriptionManifest] =
      (none,
        { namespaces := [{ meta := { Name := "ns1", Namespace := "" } }],
          subscriptions := [{ meta := { Name := "etcd-sub", Namespace := "ns1" },
                              Spec := some { Package := "etcd",
                                             Channel := "singlenamespace-alpha" } }],
          catalogs := [{ meta := { Name := "cat1", Namespace := "ns1" },
                         Spec := { SourceType := "grpc", Address := "localhost:50051" } }],
          csvs := [] }) :=
  (InputBuilder_Add_appends sampleEnv InputBuilder.zero).2
    [sampleNamespaceManifest, sampleCatalogManifest "cat1" "localhost:50051" "grpc",
     sampleSubscriptionManifest]
    (by
      intro u hu
      simp only [List.mem_cons, List.mem_singleton, List.not_mem_nil, or_false] at hu
      rcases hu with rfl | rfl | rfl
      · exact Or.inr (Or.inr (Or.inl ⟨rfl, _, rfl⟩))
      · exact Or.inr (Or.inl ⟨rfl, _, rfl, rfl⟩)
      · exact Or.inr (Or.inr (Or.inr ⟨rfl, _, rfl⟩)))

/-! ### manifests.go -/

theorem string_append_eq_empty (a b : String) : a ++ b = "" ↔ a = "" ∧ b = "" := by
  constructor
  · intro h
    have hd := congrArg String.data h
    simp only [String.data_append, List.append_eq_nil] at hd
    exact ⟨String.ext hd.1, String.ext hd.2⟩
  · rintro ⟨rfl, rfl⟩
    rfl

/-- C4: `buildSubscriptions` returns an error exactly when the first `bundle`
value and the first `channel` value of the query are both empty; otherwise it
returns, with a nil error, a Subscription whose package is the `bundle` value,
whose channel is the `channel` value and whose name is "sample-", the bundle
value and "-subscription". In particular a query with no parameters fails, so
that `LoadManifest` fails on a locator without query parameters, and a query
giving a non-empty value to one of the two parameters alone succeeds, so that
`LoadManifest` returns no error on such a locator when the catalog loads. -/
theorem buildSubscriptions_error_iff_both_empty :
    (∀ query : Values,
      ((FileBasedCatalogLoader.buildSubscriptions query).2 ≠ none ↔
        (query.Get "bundle" = "" ∧ query.Get "channel" = "")) ∧
      (¬ (query.Get "bundle" = "" ∧ query.Get "channel" = "") →
        FileBasedCatalogLoader.buildSubscriptions query =
          ({ meta := { Name := "sample-" ++ query.Get "bundle" ++ "-subscription",
                       Namespace := "" },
             Spec := some { Package := query.Get "bundle", Channel := query.Get "channel" } },
            none))) ∧
    (FileBasedCatalogLoader.buildSubscriptions []).2 ≠ none ∧
    (∀ (env : Env) (src : URL), env.urlQuery src = [] →
      (FileBasedCatalogLoader.LoadManifest env src).1.2.2 ≠ none) ∧
    (∀ v : String, v ≠ "" →
      (FileBasedCatalogLoader.buildSubscriptions [("bundle", [v])]).2 = none ∧
      (FileBasedCatalogLoader.buildSubscriptions [("channel", [v])]).2 = none) ∧
    (∀ (env : Env) (src : URL) (v : String) (fbc : DeclarativeConfig) (m : Model) (q : Querier),
      v ≠ "" → (env.urlQuery src = [("bundle", [v])] ∨ env.urlQuery src = [("channel", [v])]) →
      env.loadFS src.Path = .ok fbc → env.convertToModel fbc = .ok m →
      env.newQuerier m = .ok q →
      (FileBasedCatalogLoader.LoadManifest env src).1.2.2 = none) := by
  have key : ∀ query : Values,
      (query.Get "bundle" = "" ∧ query.Get "channel" = "" →
        FileBasedCatalogLoader.buildSubscriptions query = (Subscription.zero, some (.errorf
          "must define a bundle, version and channel when using a file based catalog" []))) ∧
      (¬ (query.Get "bundle" = "" ∧ query.Get "channel" = "") →
        FileBasedCatalogLoader.buildSubscriptions query =
          ({ meta := { Name := "sample-" ++ query.Get "bundle" ++ "-subscription",
                       Namespace := "" },
             Spec := some { Package := query.Get "bundle", Channel := query.Get "channel" } },
            none)) := by
    intro query
    constructor
    · intro h
      have hh := (string_append_eq_empty _ _).2 h
      simp only [FileBasedCatalogLoader.buildSubscriptions, hh, if_true]
    · intro h
      have hh : ¬ (query.Get "bundle" ++ query.Get "channel" = "") :=
        fun h2 => h ((string_append_eq_empty _ _).1 h2)
      simp only [FileBasedCatalogLoader.buildSubscriptions, hh, if_false]
  have hempty : (FileBasedCatalogLoader.buildSubscriptions []).2 ≠ none := by
    rw [((key []).1 ⟨rfl, rfl⟩)]
    exact Option.some_ne_none _
  have hone : ∀ v : String, v ≠ "" →
      (FileBasedCatalogLoader.buildSubscriptions [("bundle", [v])]).2 = none ∧
      (FileBasedCatalogLoader.buildSubscriptions [("channel", [v])]).2 = none := by
    intro v hv
    have hb : Values.Get [("bundle", [v])] "bundle" = v := by
      simp [Values.Get, List.lookup]
    have hc : Values.Get [("channel", [v])] "channel" = v := by
      simp [Values.Get, List.lookup]
    constructor
    · rw [(key _).2 (fun h => hv (hb ▸ h.1))]
    · rw [(key _).2 (fun h => hv (hc ▸ h.2))]
  refine ⟨?_, hempty, ?_, hone, ?_⟩
  · intro query
    refine ⟨⟨?_, ?_⟩, (key query).2⟩
    · intro herr
      by_contra hne
      rw [(key query).2 hne] at herr
      exact herr rfl
    · intro h
      rw [(key query).1 h]
      exact Option.some_ne_none _
  · intro env src hq
    unfold FileBasedCatalogLoader.LoadManifest
    rcases h1 : env.loadFS src.Path with err | fbc
    · simp
    · rcases h2 : env.convertToModel fbc with err | m
      · simp [h2]
      · simp [h2, hq, (key []).1 ⟨rfl, rfl⟩]
  · intro env src v fbc m q hv hq h1 h2 h3
    unfold FileBasedCatalogLoader.LoadManifest
    rcases hq with hq | hq
    · rcases hb : FileBasedCatalogLoader.buildSubscriptions [("bundle", [v])] with ⟨sub, _ | e⟩
      · simp [h1, h2, h3, hq, hb]
      · have := (hone v hv).1
        rw [hb] at this
        exact absurd this (by simp)
    · rcases hb : FileBasedCatalogLoader.buildSubscriptions [("channel", [v])] with ⟨sub, _ | e⟩
      · simp [h1, h2, h3, hq, hb]
      · have := (hone v hv).2
        rw [hb] at this
        exact absurd this (by simp)

theorem buildSubscriptions_error_iff_both_empty_witness :
    FileBasedCatalogLoader.buildSubscriptions [("bundle", ["etcd"]), ("channel", ["alpha"])] =
      ({ meta := { Name := "sample-etcd-subscription", Namespace := "" },
         Spec := some { Package := "etcd", Channel := "alpha" } }, none) :=
  (buildSubscriptions_error_iff_both_empty.1
    [("bundle", ["etcd"]), ("channel", ["alpha"])]).2 (by decide)

/-- The schemeless loader is the file loader applied to the locator with
scheme "file" and path the absolute form of the string form of `src`, after
one call of `filepath.Abs`; it fails on its own when the absolute form cannot
be computed. -/
theorem schemeless_is_file_on_abs_of_string (env : Env) (src : URL) :
    (∀ abs, env.filepathAbs (env.urlString src) = .ok abs →
      SchemelessLoader.LoadManifest env src =
        ((FileLoader.LoadManifest env { Scheme := "file", Path := abs, RawQuery := "" }).1,
          .filepathAbs (env.urlString src) ::
            (FileLoader.LoadManifest env { Scheme := "file", Path := abs, RawQuery := "" }).2)) ∧
    (∀ err, env.filepathAbs (env.urlString src) = .error err →
      SchemelessLoader.LoadManifest env src =
        (.error (.wrapf "could not interpret schemeless argument as file path: %w" [] err),
          [.filepathAbs (env.urlString src)])) := by
  constructor
  · intro abs h
    simp only [SchemelessLoader.LoadManifest, h]
  · intro err h
    simp only [SchemelessLoader.LoadManifest, h]

/-- C9, at the locator `my file.yaml` with `/work/my file.yaml` on disk: the
locator parses to a schemeless URL with that path, whose absolute form is
`/work/my file.yaml`; the file loader on the canonical locator decodes the
namespace manifest, but the schemeless loader takes the absolute form of the
string form of the URL, `/work/my%20file.yaml`, and fails to open it. -/
theorem SchemelessLoader_opens_string_form :
    sampleEnv.urlParse "my file.yaml" =
      .ok { Scheme := "", Path := "my file.yaml", RawQuery := "" } ∧
    sampleEnv.filepathAbs "my file.yaml" = .ok "/work/my file.yaml" ∧
    FileLoader.LoadManifest sampleEnv
        { Scheme := "file", Path := "/work/my file.yaml", RawQuery := "" } =
      (.ok sampleNamespaceManifest, [.osOpen "/work/my file.yaml"]) ∧
    SchemelessLoader.LoadManifest sampleEnv
        { Scheme := "", Path := "my file.yaml", RawQuery := "" } =
      (.error (.wrapf "failed to open file %q: %w" [.str "/work/my%20file.yaml"]
          (.external "no such file or directory")),
        [.filepathAbs "my%20file.yaml", .osOpen "/work/my%20file.yaml"]) :=
  ⟨rfl, rfl, rfl, rfl⟩

/-! ### resolve.go -/

theorem ClientMap.get_set_self (m : ClientMap) (k : CatalogKey) (v : ClientInterface) :
    (ClientMap.set m k v).get k = some v := by
  simp [ClientMap.get, ClientMap.set, List.find?_append, List.find?_filter]

theorem ClientMap.get_set_other (m : ClientMap) (k k2 : CatalogKey) (v : ClientInterface)
    (h : k2 ≠ k) : (ClientMap.set m k v).get k2 = m.get k2 := by
  have hpred : (fun a : CatalogKey × ClientInterface => !decide (a.1 = k) && decide (a.1 = k2)) =
      (fun e => decide (e.1 = k2)) := by
    funext a
    by_cases hk : a.1 = k2
    · have : a.1 ≠ k := fun hh => h (hk ▸ hh)
      simp [hk, this, h]
    · simp [hk]
  have hne : ¬ k = k2 := fun hh => h hh.symm
  simp [ClientMap.get, ClientMap.set, List.find?_append, List.find?_filter, hpred, hne]

theorem ClientMap.has_set (m : ClientMap) (k k2 : CatalogKey) (v : ClientInterface) :
    (ClientMap.set m k v).has k2 = true ↔ (m.has k2 = true ∨ k2 = k) := by
  by_cases hk : k2 = k
  · simp [ClientMap.has, ClientMap.set, hk]
  · have hne : ¬ k = k2 := fun hh => hk hh.symm
    simp [ClientMap.has, ClientMap.set, hk, hne]

theorem ClientMap.has_of_get (m : ClientMap) (k : CatalogKey) (v : ClientInterface)
    (h : m.get k = some v) : m.has k = true := by
  simp only [ClientMap.get, Option.map_eq_some'] at h
  obtain ⟨a, ha, _⟩ := h
  have hmem := List.mem_of_find?_eq_some ha
  have hp := List.find?_some ha
  simp only [ClientMap.has, List.any_eq_true]
  exact ⟨a, hmem, hp⟩

/-- The catalog loop over a prefix whose keys are pairwise distinct and absent
from the map: it registers every catalog of the prefix, keeps every entry the
map had, and goes on with the rest. -/
theorem catalogLoop_over_distinct (env : Env) (pre : List CatalogSource) :
    ∀ (rest : List CatalogSource) (clients : ClientMap),
      (∀ x ∈ pre, ∃ cl, env.newClient x.Spec.Address = .ok cl) →
      (pre.map CatalogSource.key).Nodup →
      (∀ x ∈ pre, clients.has x.key = false) →
      ∃ M : ClientMap,
        (∀ k, M.has k = true ↔ (clients.has k = true ∨ k ∈ pre.map CatalogSource.key)) ∧
        (∀ k v, clients.get k = some v → M.get k = some v) ∧
        (∀ x ∈ pre, ∃ cl, env.newClient x.Spec.Address = .ok cl ∧
          M.get x.key = some (.live cl)) ∧
        resolveManifestsWithRunningCatalog.catalogLoop env (pre ++ rest) clients =
          ((resolveManifestsWithRunningCatalog.catalogLoop env rest M).1,
           (resolveManifestsWithRunningCatalog.catalogLoop env rest M).2.1,
           pre.map (fun x => Call.newClient x.Spec.Address) ++
             (resolveManifestsWithRunningCatalog.catalogLoop env rest M).2.2) := by
  induction pre with
  | nil =>
    intro rest clients _ _ _
    exact ⟨clients, by simp, fun _ _ h => h, by simp, by simp⟩
  | cons x pre ih =>
    intro rest clients hnew hnd hfresh
    obtain ⟨cl, hcl⟩ := hnew x (List.mem_cons_self _ _)
    have hx : clients.has x.key = false := hfresh x (List.mem_cons_self _ _)
    simp only [List.map_cons, List.nodup_cons] at hnd
    have hfresh2 : ∀ y ∈ pre, (ClientMap.set clients x.key (.live cl)).has y.key = false := by
      intro y hy
      cases hh : (ClientMap.set clients x.key (.live cl)).has y.key with
      | false => rfl
      | true =>
        exfalso
        rcases (ClientMap.has_set clients x.key y.key (.live cl)).1 hh with h1 | h1
        · rw [hfresh y (List.mem_cons_of_mem _ hy)] at h1
          exact Bool.false_ne_true h1
        · exact hnd.1 (h1 ▸ List.mem_map_of_mem _ hy)
    obtain ⟨M, hM1, hM2, hM3, hM4⟩ := ih rest (ClientMap.set clients x.key (.live cl))
      (fun y hy => hnew y (List.mem_cons_of_mem _ hy)) hnd.2 hfresh2
    refine ⟨M, ?_, ?_, ?_, ?_⟩
    · intro k
      rw [hM1 k, ClientMap.has_set]
      simp only [List.map_cons, List.mem_cons]
      tauto
    · intro k v hk
      have hne : k ≠ x.key := by
        intro hh
        have := ClientMap.has_of_get clients k v hk
        rw [hh, hx] at this
        exact Bool.false_ne_true this
      apply hM2
      rw [ClientMap.get_set_other clients x.key k _ hne]
      exact hk
    · intro y hy
      rcases List.mem_cons.1 hy with rfl | hy
      · exact ⟨cl, hcl, hM2 _ _ (ClientMap.get_set_self clients _ _)⟩
      · exact hM3 y hy
    · have hstep : resolveManifestsWithRunningCatalog.catalogLoop env (x :: (pre ++ rest)) clients =
          ((resolveManifestsWithRunningCatalog.catalogLoop env (pre ++ rest)
              (ClientMap.set clients x.key (.live cl))).1,
           (resolveManifestsWithRunningCatalog.catalogLoop env (pre ++ rest)
              (ClientMap.set clients x.key (.live cl))).2.1,
           Call.newClient x.Spec.Address ::
             (resolveManifestsWithRunningCatalog.catalogLoop env (pre ++ rest)
                (ClientMap.set clients x.key (.live cl))).2.2) := by
        simp only [resolveManifestsWithRunningCatalog.catalogLoop, hx, Bool.false_eq_true,
          if_false, hcl]
      rw [List.cons_append, hstep, hM4]
      simp only [List.map_cons, List.cons_append]

theorem exists_first_repeat {α β : Type} (f : β → α) (l : List β) (h : ¬ (l.map f).Nodup) :
    ∃ pre c post, l = pre ++ c :: post ∧ (pre.map f).Nodup ∧ f c ∈ pre.map f := by
  induction l using List.reverseRecOn with
  | nil => exact absurd List.nodup_nil h
  | append_singleton l c ih =>
    by_cases hl : (l.map f).Nodup
    · refine ⟨l, c, [], rfl, hl, ?_⟩
      by_contra hc
      apply h
      rw [List.map_append, List.nodup_append]
      refine ⟨hl, by simp, ?_⟩
      intro a ha hb
      simp only [List.map_cons, List.map_nil, List.mem_singleton] at hb
      exact hc (hb ▸ ha)
    · obtain ⟨pre, c2, post, hdec, hnd, hmem⟩ := ih hl
      exact ⟨pre, c2, post ++ [c], by simp [hdec], hnd, hmem⟩

theorem add_error_indep (env : Env) (b b2 : InputBuilder) (u : Unstructured) :
    (b.Add env u).1 = (b2.Add env u).1 := by
  unfold InputBuilder.Add
  repeat' split
  all_goals rfl

theorem loader_calls (env : Env) (loader : ManifestLoader) (src : URL) :
    ∀ c ∈ (loader.LoadManifest env src).2, c.isSolve = false ∧ c.isNewClient = false := by
  intro c hc
  cases loader with
  | FileLoader =>
    simp only [ManifestLoader.LoadManifest, FileLoader.LoadManifest] at hc
    repeat' split at hc
    all_goals
      simp only [List.mem_singleton] at hc
      subst hc
      exact ⟨rfl, rfl⟩
  | SchemelessLoader =>
    simp only [ManifestLoader.LoadManifest, SchemelessLoader.LoadManifest,
      FileLoader.LoadManifest] at hc
    repeat' split at hc
    all_goals
      simp only [List.mem_cons, List.mem_singleton, List.not_mem_nil, or_false] at hc
      rcases hc with rfl | rfl <;> exact ⟨rfl, rfl⟩

theorem argBody_indep (env : Env) (b : InputBuilder) (arg : String) :
    (resolveManifestsWithRunningCatalog.argBody env b arg).1 = argError env arg ∧
    (resolveManifestsWithRunningCatalog.argBody env b arg).2.2 = argCalls env arg := by
  unfold argError argCalls resolveManifestsWithRunningCatalog.argBody
  rcases hp : env.urlParse arg with err | src
  · exact ⟨rfl, rfl⟩
  · dsimp only
    rcases hs : loaders src.Scheme with _ | loader
    · exact ⟨rfl, rfl⟩
    · dsimp only
      rcases hl : loader.LoadManifest env src with ⟨err | u, calls⟩
      · exact ⟨rfl, rfl⟩
      · dsimp only
        have hindep := add_error_indep env b InputBuilder.zero u
        rcases h1 : b.Add env u with ⟨_ | e1, b1⟩ <;>
          rcases h2 : InputBuilder.zero.Add env u with ⟨_ | e2, b2⟩ <;>
          simp only [h1, h2] at hindep ⊢ <;> simp_all

theorem argCalls_load (env : Env) (arg : String) :
    ∀ c ∈ argCalls env arg, c.isSolve = false ∧ c.isNewClient = false := by
  intro c hc
  unfold argCalls resolveManifestsWithRunningCatalog.argBody at hc
  rcases hp : env.urlParse arg with err | src
  · simp [hp] at hc
  · rcases hs : loaders src.Scheme with _ | loader
    · simp [hp, hs] at hc
    · have hload := loader_calls env loader src
      rcases hl : loader.LoadManifest env src with ⟨err | u, calls⟩
      · simp only [hp, hs, hl] at hc
        exact hload c (by rw [hl]; exact hc)
      · rcases h2 : InputBuilder.zero.Add env u with ⟨_ | e2, b2⟩
        · simp only [hp, hs, hl, h2] at hc
          exact hload c (by rw [hl]; exact hc)
        · simp only [hp, hs, hl, h2] at hc
          exact hload c (by rw [hl]; exact hc)

theorem argLoop_cons_ok (env : Env) (arg : String) (rest : List String) (b : InputBuilder)
    (h : argError env arg = none) :
    ∃ b1, resolveManifestsWithRunningCatalog.argLoop env (arg :: rest) b =
      ((resolveManifestsWithRunningCatalog.argLoop env rest b1).1,
       (resolveManifestsWithRunningCatalog.argLoop env rest b1).2.1,
       argCalls env arg ++ (resolveManifestsWithRunningCatalog.argLoop env rest b1).2.2) := by
  have hi := argBody_indep env b arg
  rcases hb : resolveManifestsWithRunningCatalog.argBody env b arg with ⟨_ | err, b1, calls⟩
  · rw [hb] at hi
    refine ⟨b1, ?_⟩
    simp only [resolveManifestsWithRunningCatalog.argLoop, hb]
    rw [← hi.2]
  · rw [hb, h] at hi
    exact absurd hi.1 (by simp)

theorem argLoop_cons_error (env : Env) (arg : String) (rest : List String) (b : InputBuilder)
    (e : GoError) (h : argError env arg = some e) :
    (resolveManifestsWithRunningCatalog.argLoop env (arg :: rest) b).1 = some e ∧
    (resolveManifestsWithRunningCatalog.argLoop env (arg :: rest) b).2.2 = argCalls env arg := by
  have hi := argBody_indep env b arg
  rcases hb : resolveManifestsWithRunningCatalog.argBody env b arg with ⟨_ | err, b1, calls⟩
  · rw [hb, h] at hi
    exact absurd hi.1 (by simp)
  · rw [hb] at hi
    simp only [resolveManifestsWithRunningCatalog.argLoop, hb]
    exact ⟨by rw [← h]; exact hi.1, hi.2⟩

theorem argLoop_calls_le (env : Env) (args : List String) :
    ∀ b : InputBuilder, ∀ c ∈ (resolveManifestsWithRunningCatalog.argLoop env args b).2.2,
      c.isSolve = false ∧ c.isNewClient = false := by
  induction args with
  | nil =>
    intro b c hc
    simp [resolveManifestsWithRunningCatalog.argLoop] at hc
  | cons arg rest ih =>
    intro b c hc
    rcases he : argError env arg with _ | e
    · obtain ⟨b1, hb1⟩ := argLoop_cons_ok env arg rest b he
      rw [hb1] at hc
      rcases List.mem_append.1 hc with h | h
      · exact argCalls_load env arg c h
      · exact ih b1 c h
    · rw [(argLoop_cons_error env arg rest b e he).2] at hc
      exact argCalls_load env arg c hc

theorem argLoop_fails_fast (env : Env) (pre : List String) (a : String) (post : List String)
    (e : GoError) (hpre : ∀ x ∈ pre, argError env x = none) (ha : argError env a = some e) :
    ∀ b : InputBuilder,
      (resolveManifestsWithRunningCatalog.argLoop env (pre ++ a :: post) b).1 = some e ∧
      (resolveManifestsWithRunningCatalog.argLoop env (pre ++ a :: post) b).2.2 =
        (pre ++ [a]).flatMap (argCalls env) := by
  induction pre with
  | nil =>
    intro b
    simpa using argLoop_cons_error env a post b e ha
  | cons x pre ih =>
    intro b
    obtain ⟨b1, hb1⟩ := argLoop_cons_ok env x (pre ++ a :: post) b
      (hpre x (List.mem_cons_self _ _))
    have hrec := ih (fun y hy => hpre y (List.mem_cons_of_mem _ hy)) b1
    rw [List.cons_append, hb1]
    simp only [hrec.1, hrec.2, List.cons_append, List.flatMap_cons, and_self]

theorem argError_cases (env : Env) (a : String) (e : GoError) (h : argError env a = some e) :
    (∃ err, env.urlParse a = .error err ∧
      e = .wrapf "failed to parse argument %q as url: %w" [.str a] err) ∨
    (∃ src, env.urlParse a = .ok src ∧ loaders src.Scheme = none ∧
      e = .errorf "no manifest loader for scheme %q" [.str src.Scheme]) ∨
    (∃ src loader err, env.urlParse a = .ok src ∧ loaders src.Scheme = some loader ∧
      (loader.LoadManifest env src).1 = .error err ∧
      e = .wrapf "error loading manifest from %q: %w" [.url src] err) ∨
    (∃ src loader u err, env.urlParse a = .ok src ∧ loaders src.Scheme = some loader ∧
      (loader.LoadManifest env src).1 = .ok u ∧ (InputBuilder.zero.Add env u).1 = some err ∧
      e = .wrapf "error adding input: %w" [] err) := by
  unfold argError resolveManifestsWithRunningCatalog.argBody at h
  rcases hp : env.urlParse a with err | src
  · left
    simp only [hp, Option.some.injEq] at h
    exact ⟨err, rfl, h.symm⟩
  · right
    rcases hs : loaders src.Scheme with _ | loader
    · left
      simp only [hp, hs, Option.some.injEq] at h
      exact ⟨src, rfl, hs, h.symm⟩
    · right
      rcases hl : loader.LoadManifest env src with ⟨err | u, calls⟩
      · left
        simp only [hp, hs, hl, Option.some.injEq] at h
        exact ⟨src, loader, err, rfl, hs, by rw [hl], h.symm⟩
      · right
        rcases h2 : InputBuilder.zero.Add env u with ⟨_ | e2, b2⟩
        · simp [hp, hs, hl, h2] at h
        · simp only [hp, hs, hl, h2, Option.some.injEq] at h
          exact ⟨src, loader, u, e2, rfl, hs, by rw [hl], by rw [h2], h.symm⟩

theorem argCalls_eq_loadCalls (env : Env) (arg : String) :
    argCalls env arg = loadCalls env arg := by
  unfold argCalls loadCalls resolveManifestsWithRunningCatalog.argBody
  rcases hp : env.urlParse arg with err | src
  · rfl
  · dsimp only
    rcases hs : loaders src.Scheme with _ | loader
    · rfl
    · dsimp only
      rcases hl : loader.LoadManifest env src with ⟨err | u, calls⟩
      · rfl
      · dsimp only
        rcases h2 : InputBuilder.zero.Add env u with ⟨_ | e2, b2⟩ <;> rfl

theorem argError_of_parse_error (env : Env) (a : String) (err : GoError)
    (hp : env.urlParse a = .error err) :
    argError env a = some (.wrapf "failed to parse argument %q as url: %w" [.str a] err) := by
  simp only [argError, resolveManifestsWithRunningCatalog.argBody, hp]

theorem argError_of_no_loader (env : Env) (a : String) (src : URL)
    (hp : env.urlParse a = .ok src) (hs : loaders src.Scheme = none) :
    argError env a = some (.errorf "no manifest loader for scheme %q" [.str src.Scheme]) := by
  simp only [argError, resolveManifestsWithRunningCatalog.argBody, hp, hs]

theorem argError_of_load_error (env : Env) (a : String) (src : URL) (loader : ManifestLoader)
    (err : GoError) (hp : env.urlParse a = .ok src) (hs : loaders src.Scheme = some loader)
    (hl : (loader.LoadManifest env src).1 = .error err) :
    argError env a = some (.wrapf "error loading manifest from %q: %w" [.url src] err) := by
  rcases hl2 : loader.LoadManifest env src with ⟨r, calls⟩
  rw [hl2] at hl
  simp only at hl
  subst hl
  simp only [argError, resolveManifestsWithRunningCatalog.argBody, hp, hs, hl2]

theorem argError_of_add_error (env : Env) (a : String) (src : URL) (loader : ManifestLoader)
    (u : Unstructured) (b0 : InputBuilder) (err : GoError)
    (hp : env.urlParse a = .ok src) (hs : loaders src.Scheme = some loader)
    (hl : (loader.LoadManifest env src).1 = .ok u) (hadd : (b0.Add env u).1 = some err) :
    argError env a = some (.wrapf "error adding input: %w" [] err) := by
  rcases hl2 : loader.LoadManifest env src with ⟨r, calls⟩
  rw [hl2] at hl
  simp only at hl
  subst hl
  rw [add_error_indep env b0 InputBuilder.zero u] at hadd
  rcases h2 : InputBuilder.zero.Add env u with ⟨e2, b2⟩
  rw [h2] at hadd
  simp only at hadd
  subst hadd
  simp only [argError, resolveManifestsWithRunningCatalog.argBody, hp, hs, hl2, h2]

theorem argError_of_accepted (env : Env) (a : String) (src : URL) (loader : ManifestLoader)
    (u : Unstructured) (b0 : InputBuilder)
    (hp : env.urlParse a = .ok src) (hs : loaders src.Scheme = some loader)
    (hl : (loader.LoadManifest env src).1 = .ok u) (hadd : (b0.Add env u).1 = none) :
    argError env a = none := by
  rcases hl2 : loader.LoadManifest env src with ⟨r, calls⟩
  rw [hl2] at hl
  simp only at hl
  subst hl
  rw [add_error_indep env b0 InputBuilder.zero u] at hadd
  rcases h2 : InputBuilder.zero.Add env u with ⟨e2, b2⟩
  rw [h2] at hadd
  simp only at hadd
  subst hadd
  simp only [argError, resolveManifestsWithRunningCatalog.argBody, hp, hs, hl2, h2]

/-- When the body accepts every argument before `a` and returns on `a` with
the error `e`, the function returns `e` after the load calls of the
arguments up to `a`. -/
theorem resolveManifests_returns_body_error (env : Env) (pre : List String) (a : String)
    (post : List String) (e : GoError)
    (hpre : ∀ x ∈ pre, argError env x = none) (ha : argError env a = some e) :
    resolveManifestsWithRunningCatalog env (pre ++ a :: post) =
      (.error e, (pre ++ [a]).flatMap (loadCalls env)) := by
  have hloop := argLoop_fails_fast env pre a post e hpre ha InputBuilder.zero
  have hcalls : argCalls env = loadCalls env := funext (argCalls_eq_loadCalls env)
  rcases hl : resolveManifestsWithRunningCatalog.argLoop env (pre ++ a :: post)
    InputBuilder.zero with ⟨err, b1, calls⟩
  rw [hl] at hloop
  simp only at hloop
  simp only [resolveManifestsWithRunningCatalog, hl, hloop.1, hloop.2, hcalls]

/-- C5: let every argument before `a` parse, have a loader for its scheme,
load, and be accepted by `Add`. If `a` fails to parse, or has no loader for
its scheme, or fails to load, or is rejected by `Add`, then the function
returns the wrapped error of that step of `a`, whatever arguments follow `a`:
it does not skip `a`. The calls it has made are the load calls of the
arguments up to `a`, in order, none of them a client construction or a call
of the solver. -/
theorem resolveManifests_fails_fast (env : Env) (pre : List String) (a : String)
    (post : List String)
    (hpre : ∀ x ∈ pre, ∃ (src : URL) (loader : ManifestLoader) (u : Unstructured)
      (b0 : InputBuilder), env.urlParse x = .ok src ∧ loaders src.Scheme = some loader ∧
        (loader.LoadManifest env src).1 = .ok u ∧ (b0.Add env u).1 = none) :
    (∀ err, env.urlParse a = .error err →
      resolveManifestsWithRunningCatalog env (pre ++ a :: post) =
        (.error (.wrapf "failed to parse argument %q as url: %w" [.str a] err),
          (pre ++ [a]).flatMap (loadCalls env))) ∧
    (∀ src, env.urlParse a = .ok src → loaders src.Scheme = none →
      resolveManifestsWithRunningCatalog env (pre ++ a :: post) =
        (.error (.errorf "no manifest loader for scheme %q" [.str src.Scheme]),
          (pre ++ [a]).flatMap (loadCalls env))) ∧
    (∀ src loader err, env.urlParse a = .ok src → loaders src.Scheme = some loader →
      (loader.LoadManifest env src).1 = .error err →
      resolveManifestsWithRunningCatalog env (pre ++ a :: post) =
        (.error (.wrapf "error loading manifest from %q: %w" [.url src] err),
          (pre ++ [a]).flatMap (loadCalls env))) ∧
    (∀ src loader u (b0 : InputBuilder) err, env.urlParse a = .ok src →
      loaders src.Scheme = some loader → (loader.LoadManifest env src).1 = .ok u →
      (b0.Add env u).1 = some err →
      resolveManifestsWithRunningCatalog env (pre ++ a :: post) =
        (.error (.wrapf "error adding input: %w" [] err),
          (pre ++ [a]).flatMap (loadCalls env))) ∧
    (∀ c ∈ (pre ++ [a]).flatMap (loadCalls env),
      c.isSolve = false ∧ c.isNewClient = false) := by
  have hacc : ∀ x ∈ pre, argError env x = none := by
    intro x hx
    obtain ⟨src, loader, u, b0, hp, hs, hl, hadd⟩ := hpre x hx
    exact argError_of_accepted env x src loader u b0 hp hs hl hadd
  refine ⟨?_, ?_, ?_, ?_, ?_⟩
  · intro err hp
    exact resolveManifests_returns_body_error env pre a post _ hacc
      (argError_of_parse_error env a err hp)
  · intro src hp hs
    exact resolveManifests_returns_body_error env pre a post _ hacc
      (argError_of_no_loader env a src hp hs)
  · intro src loader err hp hs hl
    exact resolveManifests_returns_body_error env pre a post _ hacc
      (argError_of_load_error env a src loader err hp hs hl)
  · intro src loader u b0 err hp hs hl hadd
    exact resolveManifests_returns_body_error env pre a post _ hacc
      (argError_of_add_error env a src loader u b0 err hp hs hl hadd)
  · intro c hc
    simp only [List.mem_flatMap] at hc
    obtain ⟨x, _, hx⟩ := hc
    rw [← argCalls_eq_loadCalls] at hx
    exact argCalls_load env x c hx

theorem resolveManifests_fails_fast_witness :
    resolveManifestsWithRunningCatalog sampleEnv (["ns1.yaml"] ++ "%zz" :: ["cat1.yaml"]) =
      (.error (.wrapf "failed to parse argument %q as url: %w" [.str "%zz"]
          (.external "invalid URL escape")),
        [.filepathAbs "ns1.yaml", .osOpen "/work/ns1.yaml"]) ∧
    resolveManifestsWithRunningCatalog sampleEnv
        (["ns1.yaml"] ++ "http://example.com/m.yaml" :: ["cat1.yaml"]) =
      (.error (.errorf "no manifest loader for scheme %q" [.str "http"]),
        [.filepathAbs "ns1.yaml", .osOpen "/work/ns1.yaml"]) ∧
    resolveManifestsWithRunningCatalog sampleEnv (["ns1.yaml"] ++ "absent.yaml" :: ["cat1.yaml"]) =
      (.error (.wrapf "error loading manifest from %q: %w"
          [.url { Scheme := "", Path := "absent.yaml", RawQuery := "" }]
          (.wrapf "failed to open file %q: %w" [.str "/work/absent.yaml"]
            (.external "no such file or directory"))),
        [.filepathAbs "ns1.yaml", .osOpen "/work/ns1.yaml",
         .filepathAbs "absent.yaml", .osOpen "/work/absent.yaml"]) ∧
    resolveManifestsWithRunningCatalog sampleEnv (["ns1.yaml"] ++ "pod.yaml" :: ["cat1.yaml"]) =
      (.error (.wrapf "error adding input: %w" []
          (.errorf "gvk %q not recognized" [.gvk (sampleCoreGV.WithKind "Pod")])),
        [.filepathAbs "ns1.yaml", .osOpen "/work/ns1.yaml",
         .filepathAbs "pod.yaml", .osOpen "/work/pod.yaml"]) :=
  have hpre : ∀ x ∈ ["ns1.yaml"], ∃ (src : URL) (loader : ManifestLoader) (u : Unstructured)
      (b0 : InputBuilder), sampleEnv.urlParse x = .ok src ∧ loaders src.Scheme = some loader ∧
        (loader.LoadManifest sampleEnv src).1 = .ok u ∧ (b0.Add sampleEnv u).1 = none := by
    intro x hx
    simp only [List.mem_singleton] at hx
    subst hx
    exact ⟨{ Scheme := "", Path := "ns1.yaml", RawQuery := "" }, .SchemelessLoader,
      sampleNamespaceManifest, InputBuilder.zero, rfl, rfl, rfl, rfl⟩
  ⟨(resolveManifests_fails_fast sampleEnv ["ns1.yaml"] "%zz" ["cat1.yaml"] hpre).1
      (.external "invalid URL escape") rfl,
   (resolveManifests_fails_fast sampleEnv ["ns1.yaml"] "http://example.com/m.yaml"
      ["cat1.yaml"] hpre).2.1
      { Scheme := "http", Path := "example.com/m.yaml", RawQuery := "" } rfl rfl,
   (resolveManifests_fails_fast sampleEnv ["ns1.yaml"] "absent.yaml" ["cat1.yaml"] hpre).2.2.1
      { Scheme := "", Path := "absent.yaml", RawQuery := "" } .SchemelessLoader
      (.wrapf "failed to open file %q: %w" [.str "/work/absent.yaml"]
        (.external "no such file or directory")) rfl rfl rfl,
   (resolveManifests_fails_fast sampleEnv ["ns1.yaml"] "pod.yaml" ["cat1.yaml"] hpre).2.2.2.1
      { Scheme := "", Path := "pod.yaml", RawQuery := "" } .SchemelessLoader
      { gvk := sampleCoreGV.WithKind "Pod", object := [("metadata.name", "p")] }
      InputBuilder.zero
      (.errorf "gvk %q not recognized" [.gvk (sampleCoreGV.WithKind "Pod")]) rfl rfl rfl rfl⟩

theorem catalogLoop_calls (env : Env) (catalogs : List CatalogSource) :
    ∀ clients : ClientMap,
      ∀ c ∈ (resolveManifestsWithRunningCatalog.catalogLoop env catalogs clients).2.2,
        c.isSolve = false := by
  induction catalogs with
  | nil =>
    intro clients c hc
    simp [resolveManifestsWithRunningCatalog.catalogLoop] at hc
  | cons x rest ih =>
    intro clients c hc
    unfold resolveManifestsWithRunningCatalog.catalogLoop at hc
    dsimp only at hc
    split at hc
    · simp at hc
    · rcases hn : env.newClient x.Spec.Address with err | cl
      · simp only [hn, List.mem_singleton] at hc
        subst hc
        rfl
      · simp only [hn, List.mem_cons] at hc
        rcases hc with rfl | hc
        · rfl
        · exact ih _ c hc

/-- C2, as amended: when two entries of the classified catalogs have the same
(namespace, name) key and client construction succeeds for every address, the
catalog loop stops at the first entry `c` whose key an earlier entry already
has, which need not be one of the two given entries: it returns the "duplicate
catalog source" error naming the key of `c` (the key the two given entries
share, when no other key is repeated), it has constructed clients for the
entries before `c` only, every one of those entries, the earlier holder of the
key included, is still registered with its own client, and the whole function
returns that error without a call of the solver. -/
theorem catalogLoop_rejects_duplicate (env : Env) (catalogs : List CatalogSource)
    (i j : Nat) (ci cj : CatalogSource)
    (hnew : ∀ x ∈ catalogs, ∃ cl, env.newClient x.Spec.Address = .ok cl)
    (hij : i < j) (hi : catalogs[i]? = some ci) (hj : catalogs[j]? = some cj)
    (hkey : ci.key = cj.key) :
    ∃ (pre : List CatalogSource) (c : CatalogSource) (post : List CatalogSource) (M : ClientMap),
      catalogs = pre ++ c :: post ∧ (pre.map CatalogSource.key).Nodup ∧
      c.key ∈ pre.map CatalogSource.key ∧
      resolveManifestsWithRunningCatalog.catalogLoop env catalogs [] =
        (some (.errorf "duplicate catalog source: %s/%s" [.str c.key.Namespace, .str c.key.Name]),
          M, pre.map (fun x => Call.newClient x.Spec.Address)) ∧
      (∀ x ∈ pre, ∃ cl, env.newClient x.Spec.Address = .ok cl ∧ M.get x.key = some (.live cl)) ∧
      ((∀ (a b : Nat) (ca cb : CatalogSource), a < b → catalogs[a]? = some ca →
          catalogs[b]? = some cb → ca.key = cb.key → cb.key = cj.key) → c.key = cj.key) ∧
      (∀ (args : List String) (b : InputBuilder) (calls : List Call),
        resolveManifestsWithRunningCatalog.argLoop env args InputBuilder.zero = (none, b, calls) →
        b.catalogs = catalogs →
        resolveManifestsWithRunningCatalog env args =
          (.error (.errorf "duplicate catalog source: %s/%s"
              [.str c.key.Namespace, .str c.key.Name]),
            calls ++ pre.map (fun x => Call.newClient x.Spec.Address)) ∧
        ∀ call ∈ (resolveManifestsWithRunningCatalog env args).2, call.isSolve = false) := by
  have hjlt : j < catalogs.length := (List.getElem?_eq_some.1 hj).1
  have hnd : ¬ (catalogs.map CatalogSource.key).Nodup := by
    intro h
    have := (List.nodup_iff_getElem?_ne_getElem?.1 h) i j hij (by simpa using hjlt)
    apply this
    simp [List.getElem?_map, hi, hj, hkey]
  obtain ⟨pre, c, post, hdec, hpre, hmem⟩ := exists_first_repeat CatalogSource.key catalogs hnd
  have hnewpre : ∀ x ∈ pre, ∃ cl, env.newClient x.Spec.Address = .ok cl := by
    intro x hx
    exact hnew x (by rw [hdec]; exact List.mem_append_left _ hx)
  obtain ⟨M, hM1, _, hM3, hM4⟩ := catalogLoop_over_distinct env pre (c :: post) [] hnewpre hpre
    (by intro x _; rfl)
  have hhas : M.has c.key = true := (hM1 c.key).2 (Or.inr hmem)
  have hloop : resolveManifestsWithRunningCatalog.catalogLoop env catalogs [] =
      (some (.errorf "duplicate catalog source: %s/%s" [.str c.key.Namespace, .str c.key.Name]),
        M, pre.map (fun x => Call.newClient x.Spec.Address)) := by
    rw [hdec, hM4]
    simp [resolveManifestsWithRunningCatalog.catalogLoop, hhas]
  refine ⟨pre, c, post, M, hdec, hpre, hmem, hloop, hM3, ?_, ?_⟩
  · intro honly
    obtain ⟨first, hfirst, hfk⟩ := List.mem_map.1 hmem
    obtain ⟨a, ha, hget⟩ := List.getElem_of_mem hfirst
    have h1 : catalogs[a]? = some first := by
      rw [hdec, List.getElem?_append_left ha, List.getElem?_eq_getElem ha, hget]
    have h2 : catalogs[pre.length]? = some c := by
      rw [hdec, List.getElem?_append_right (le_refl _)]; simp
    have h3 := honly a pre.length first c ha h1 h2 hfk
    exact h3
  · intro args b calls hargs hb
    have hres : resolveManifestsWithRunningCatalog env args =
        (.error (.errorf "duplicate catalog source: %s/%s"
            [.str c.key.Namespace, .str c.key.Name]),
          calls ++ pre.map (fun x => Call.newClient x.Spec.Address)) := by
      simp only [resolveManifestsWithRunningCatalog, hargs, hb, hloop]
    refine ⟨hres, ?_⟩
    intro call hcall
    rw [hres] at hcall
    rcases List.mem_append.1 hcall with h | h
    · have := argLoop_calls_le env args InputBuilder.zero call (by rw [hargs]; exact h)
      exact this.1
    · obtain ⟨x, _, rfl⟩ := List.mem_map.1 h
      rfl

theorem catalogLoop_rejects_duplicate_witness :
    ∃ (c : CatalogSource) (M : ClientMap) (calls : List Call),
      resolveManifestsWithRunningCatalog.catalogLoop sampleEnv sampleDuplicates [] =
        (some (.errorf "duplicate catalog source: %s/%s"
          [.str c.key.Namespace, .str c.key.Name]), M, calls) :=
  match catalogLoop_rejects_duplicate sampleEnv sampleDuplicates 0 1
      { meta := { Name := "cat1", Namespace := "ns1" },
        Spec := { SourceType := "grpc", Address := "localhost:50051" } }
      { meta := { Name := "cat1", Namespace := "ns1" },
        Spec := { SourceType := "grpc", Address := "localhost:50052" } }
      (fun _ _ => ⟨_, rfl⟩) (by decide) rfl rfl rfl with
  | ⟨_, c, _, M, _, _, _, hloop, _⟩ => ⟨c, M, _, hloop⟩

/-- C2 as written fails for the catalogs ns1/catA, ns1/catA, ns1/catB, ns1/catB:
the entries at the indices 2 and 3 share the key ns1/catB, yet the loop
returns the duplicate error naming ns1/catA, the key of the entry at index 1,
and not the error naming the key the two given entries share. -/
theorem catalogLoop_names_first_repeat_not_given_pair :
    sampleTwoPairs[2]? = some (sampleCatalog "catB" "localhost:50053") ∧
    sampleTwoPairs[3]? = some (sampleCatalog "catB" "localhost:50054") ∧
    (sampleCatalog "catB" "localhost:50053").key = (sampleCatalog "catB" "localhost:50054").key ∧
    (resolveManifestsWithRunningCatalog.catalogLoop sampleEnv sampleTwoPairs []).1 =
      some (.errorf "duplicate catalog source: %s/%s" [.str "ns1", .str "catA"]) ∧
    (resolveManifestsWithRunningCatalog.catalogLoop sampleEnv sampleTwoPairs []).1 ≠
      some (.errorf "duplicate catalog source: %s/%s"
        [.str (sampleCatalog "catB" "localhost:50054").key.Namespace,
         .str (sampleCatalog "catB" "localhost:50054").key.Name]) ∧
    (resolveManifestsWithRunningCatalog.catalogLoop sampleEnv sampleTwoPairs []).2.2 =
      [.newClient "localhost:50051"] := by
  decide

theorem fbc_calls (env : Env) (src : URL) :
    (FileBasedCatalogLoader.LoadManifest env src).2 = [.loadFS src.Path] := by
  unfold FileBasedCatalogLoader.LoadManifest
  repeat' split
  all_goals rfl

theorem countP_solve_one (l : List Call) (ns : List String) (csvs : List ClusterServiceVersion)
    (subs : List Subscription) (h : ∀ c ∈ l, c.isSolve = false) :
    (l ++ [Call.solveOperators ns csvs subs]).countP Call.isSolve = 1 := by
  have h0 : l.countP Call.isSolve = 0 := by
    rw [List.countP_eq_zero]
    intro a ha
    simp [h a ha]
  simp [List.countP_append, h0, Call.isSolve]

/-- C10: when the argument loop and the catalog loop of
`resolveManifestsWithRunningCatalog` both end without error, and when
`resolveFileBasedCatalog` has an argument that parses and loads, the function
calls the solver once, as its last call, on the assembled input; an operator
set the solver returns is returned as it is, and an error `e` of the solver is
returned wrapped as "resolution failed: %w" around `e`, with no further call. -/
theorem solver_called_once (env : Env) :
    (∀ (args : List String) (b : InputBuilder) (calls : List Call) (clients : ClientMap)
        (calls2 : List Call),
      resolveManifestsWithRunningCatalog.argLoop env args InputBuilder.zero = (none, b, calls) →
      resolveManifestsWithRunningCatalog.catalogLoop env b.catalogs [] =
        (none, clients, calls2) →
      (resolveManifestsWithRunningCatalog env args).2 =
        calls ++ calls2 ++
          [Call.solveOperators (b.namespaces.map (fun ns => ns.meta.Name)) b.csvs
            b.subscriptions] ∧
      (resolveManifestsWithRunningCatalog env args).2.countP Call.isSolve = 1 ∧
      (∀ ops, env.solveOperators clients (b.namespaces.map (fun ns => ns.meta.Name)) b.csvs
            b.subscriptions = .ok ops →
        (resolveManifestsWithRunningCatalog env args).1 = .ok ops) ∧
      (∀ e, env.solveOperators clients (b.namespaces.map (fun ns => ns.meta.Name)) b.csvs
            b.subscriptions = .error e →
        (resolveManifestsWithRunningCatalog env args).1 =
          .error (.wrapf "resolution failed: %w" [] e))) ∧
    (∀ (arg0 : String) (rest : List String) (fbcURL : URL) (q : Querier) (sub : Subscription)
        (calls : List Call),
      env.urlParse arg0 = .ok fbcURL →
      FileBasedCatalogLoader.LoadManifest env fbcURL = ((some q, sub, none), calls) →
      ∃ r, resolveFileBasedCatalog env (arg0 :: rest) = some r ∧
        r.2 = calls ++ [Call.solveOperators ["test"] [] [sub]] ∧
        r.2.countP Call.isSolve = 1 ∧
        (∀ ops, env.solveOperators
              [({ Name := "", Namespace := "" }, .phony { oq := q, embedded := q })]
              ["test"] [] [sub] = .ok ops →
          r.1 = .ok ops) ∧
        (∀ e, env.solveOperators
              [({ Name := "", Namespace := "" }, .phony { oq := q, embedded := q })]
              ["test"] [] [sub] = .error e →
          r.1 = .error (.wrapf "resolution failed: %w" [] e))) := by
  constructor
  · intro args b calls clients calls2 hargs hcat
    have hns : b.namespaces.foldl
        (fun (nsnames : List String) (ns : Namespace) => nsnames ++ [ns.meta.Name]) [] =
        b.namespaces.map (fun ns => ns.meta.Name) := by
      simpa using foldl_append_singleton (fun ns : Namespace => ns.meta.Name) b.namespaces []
    have hcalls : (resolveManifestsWithRunningCatalog env args).2 =
        calls ++ calls2 ++
          [Call.solveOperators (b.namespaces.map (fun ns => ns.meta.Name)) b.csvs
            b.subscriptions] := by
      simp only [resolveManifestsWithRunningCatalog, hargs, hcat, hns]
      split <;> rfl
    refine ⟨hcalls, ?_, ?_, ?_⟩
    · rw [hcalls]
      apply countP_solve_one
      intro c hc
      rcases List.mem_append.1 hc with h | h
      · exact (argLoop_calls_le env args InputBuilder.zero c (by rw [hargs]; exact h)).1
      · exact catalogLoop_calls env b.catalogs [] c (by rw [hcat]; exact h)
    · intro ops hops
      simp only [resolveManifestsWithRunningCatalog, hargs, hcat, hns, hops]
    · intro e he
      simp only [resolveManifestsWithRunningCatalog, hargs, hcat, hns, he]
  · intro arg0 rest fbcURL q sub calls hparse hload
    have hset : ClientMap.set [] { Namespace := "", Name := "" }
        (.phony { embedded := q, oq := q }) =
        [({ Name := "", Namespace := "" }, .phony { oq := q, embedded := q })] := rfl
    have hcalls : calls = [.loadFS fbcURL.Path] := by
      have := fbc_calls env fbcURL
      rw [hload] at this
      exact this
    rcases hs : env.solveOperators
        [({ Name := "", Namespace := "" }, .phony { oq := q, embedded := q })]
        ["test"] [] [sub] with e | ops
    · refine ⟨(.error (.wrapf "resolution failed: %w" [] e),
        calls ++ [Call.solveOperators ["test"] [] [sub]]), ?_, rfl, ?_, ?_, ?_⟩
      · simp only [resolveFileBasedCatalog, hparse, hload, hset, hs]
      · rw [hcalls]; rfl
      · intro ops hops; exact absurd hops (by simp)
      · intro e2 he2
        simp only [Except.error.injEq] at he2
        rw [he2]
    · refine ⟨(.ok ops, calls ++ [Call.solveOperators ["test"] [] [sub]]), ?_, rfl, ?_, ?_, ?_⟩
      · simp only [resolveFileBasedCatalog, hparse, hload, hset, hs]
      · rw [hcalls]; rfl
      · intro ops2 hops
        simp only [Except.ok.injEq] at hops
        rw [hops]
      · intro e2 he2; exact absurd he2 (by simp)

theorem solver_called_once_witness :
    (resolveManifestsWithRunningCatalog sampleEnv
        ["ns1.yaml", "file:///work/sub.yaml", "cat1.yaml"]).2.countP Call.isSolve = 1 ∧
    (resolveManifestsWithRunningCatalog sampleEnv
        ["ns1.yaml", "file:///work/sub.yaml", "cat1.yaml"]).1 =
      .ok [("etcd-sub", "resolved")] ∧
    ∃ r, resolveFileBasedCatalog sampleEnv ["/catalog?bundle=etcd&channel=alpha"] = some r ∧
      r.2.countP Call.isSolve = 1 ∧ r.1 = .ok [("sample-etcd-subscription", "resolved")] :=
  ⟨((solver_called_once sampleEnv).1 ["ns1.yaml", "file:///work/sub.yaml", "cat1.yaml"]
      _ _ _ _ rfl rfl).2.1,
   ((solver_called_once sampleEnv).1 ["ns1.yaml", "file:///work/sub.yaml", "cat1.yaml"]
      _ _ _ _ rfl rfl).2.2.1 _ rfl,
   match (solver_called_once sampleEnv).2 "/catalog?bundle=etcd&channel=alpha" []
      _ _ _ _ rfl rfl with
   | ⟨r, hr, _, hcount, hok, _⟩ => ⟨r, hr, hcount, hok _ rfl⟩⟩

end Depster
